import Mathlib

/-!
PSXSpuTest: the ADSR parameter editor and its SPU register writes.

A shallow embedding of `src/main.cpp`.  The program keeps twelve editable
parameters (`g_CurrentParameterValues`) with their ranges (`g_ParameterRanges`)
and a selection cursor (`g_CurrentSelection`); `UpdateADSR` packs eleven of the
parameters into the two envelope words of voice 0, and `OnButtonPress` maps pad
events to cursor moves, bounded edits and key-on / key-off writes.

Conventions of the embedding:

* machine integers are `Nat`, truncated explicitly (`u8`, `u16`, `u32`) where the
  C++ type truncates;
* a C array indexed by a small integer is a function `Nat → _` of the index;
* every memory-mapped register is a field of `State` holding the value last
  stored by the program (or the value it had before the program ran);
* the three busy-wait loops read registers that the hardware changes on its own;
  the successive values they read are given to the model as a list, and a loop
  that never reads an exit value within the list yields `none`.
-/

namespace PSXSpuTest

/-! Machine words -/

/-- Truncation to `uint8_t`. -/
def u8 (x : Nat) : Nat := x % 2 ^ 8

/-- Truncation to a 16-bit register or `uint16_t`. -/
def u16 (x : Nat) : Nat := x % 2 ^ 16

/-- Truncation to `uint32_t`; also the value of a 32-bit `int` result once it is
converted to `uint32_t` (two's complement wrap-around). -/
def u32 (x : Nat) : Nat := x % 2 ^ 32

/-! ADSR parameters -/

/-- The numeric values of `enum class EParameters : uint8_t`. -/
abbrev EParameters.AttackMode : Nat := 0
abbrev EParameters.AttackShift : Nat := 1
abbrev EParameters.AttackStep : Nat := 2
abbrev EParameters.DecayShift : Nat := 3
abbrev EParameters.SustainLevel : Nat := 4
abbrev EParameters.SustainMode : Nat := 5
abbrev EParameters.SustainDir : Nat := 6
abbrev EParameters.SustainShift : Nat := 7
abbrev EParameters.SustainStep : Nat := 8
abbrev EParameters.ReleaseMode : Nat := 9
abbrev EParameters.ReleaseShift : Nat := 10
abbrev EParameters.Waveform : Nat := 11
abbrev EParameters.NUM : Nat := 12

/-- The record `struct FParameterRange` with its default member initialisers. -/
structure FParameterRange where
  m_Min : Nat := 0x00
  m_Max : Nat := 0x0F
deriving DecidableEq

/-- The initialiser of the global `g_ParameterRanges`. -/
def g_ParameterRanges_init (i : Nat) : FParameterRange :=
  [ ({ m_Min := 0x00, m_Max := 0x01 } : FParameterRange), -- AttackMode
    { m_Min := 0x00, m_Max := 0x1F }, -- AttackShift
    { m_Min := 0x00, m_Max := 0x03 }, -- AttackStep
    { m_Min := 0x00, m_Max := 0x0F }, -- DecayShift
    { m_Min := 0x00, m_Max := 0x0F }, -- SustainLevel
    { m_Min := 0x00, m_Max := 0x01 }, -- SustainMode
    { m_Min := 0x00, m_Max := 0x01 }, -- SustainDir
    { m_Min := 0x00, m_Max := 0x1F }, -- SustainShift
    { m_Min := 0x00, m_Max := 0x03 }, -- SustainStep
    { m_Min := 0x00, m_Max := 0x01 }, -- ReleaseMode
    { m_Min := 0x00, m_Max := 0x1F }, -- ReleaseShift
    { m_Min := 0x00, m_Max := 0x01 }  -- Waveform
  ].getD i {}

/-- The initialiser of the global `g_CurrentParameterValues`, entry by entry as
in the source (whose first comment reads `AttackShift` for the `AttackMode`
entry). -/
def g_CurrentParameterValues_init (i : Nat) : Nat :=
  [ 0x00, -- AttackMode
    0x00, -- AttackShift
    0x00, -- AttackStep
    0x0F, -- DecayShift
    0x0F, -- SustainLevel
    0x00, -- SustainMode
    0x00, -- SustainDir
    0x00, -- SustainShift
    0x00, -- SustainStep
    0x00, -- ReleaseMode
    0x00, -- ReleaseShift
    0x00  -- Waveform
  ].getD i 0

/-! Hardware registers -/

/-- Modelled from the spec: the per-voice register block `SPU_VOICES[n]` is declared
in a hardware header that is not under `src/`; its eight registers are the ones the
spec lists (volume left/right, sample rate, sample start address, envelope AD word,
envelope SR word, current running volume, sample repeat address), each 16 bits
wide. -/
structure SPUVoice where
  volumeLeft : Nat
  volumeRight : Nat
  sampleRate : Nat
  sampleStartAddr : Nat
  ad : Nat
  sr : Nat
  currentVolume : Nat
  sampleRepeatAddr : Nat
deriving DecidableEq

/-- The program state: the four globals of `main.cpp` that the core reads or
writes, and every memory-mapped register the core stores to.  The register
macros come from hardware headers outside `src/`; SPU registers are 16 bits
wide, `DPCR`, `SBUS_DEV4_CTRL` and the DMA channel registers 32 bits. -/
structure State where
  g_ParameterRanges : Nat → FParameterRange
  g_CurrentParameterValues : Nat → Nat
  g_CurrentSelection : Nat
  s_masterVolume : Nat
  DPCR : Nat
  SBUS_DEV4_CTRL : Nat
  DMA_SPU_MADR : Nat
  DMA_SPU_BCR : Nat
  DMA_SPU_CHCR : Nat
  SPU_VOL_MAIN_LEFT : Nat
  SPU_VOL_MAIN_RIGHT : Nat
  SPU_CTRL : Nat
  SPU_KEY_ON_LOW : Nat
  SPU_KEY_ON_HIGH : Nat
  SPU_KEY_OFF_LOW : Nat
  SPU_KEY_OFF_HIGH : Nat
  SPU_RAM_DTA : Nat
  SPU_RAM_DTC : Nat
  SPU_VOL_CD_LEFT : Nat
  SPU_VOL_CD_RIGHT : Nat
  SPU_PITCH_MOD_LOW : Nat
  SPU_PITCH_MOD_HIGH : Nat
  SPU_NOISE_EN_LOW : Nat
  SPU_NOISE_EN_HIGH : Nat
  SPU_REVERB_EN_LOW : Nat
  SPU_REVERB_EN_HIGH : Nat
  SPU_VOL_EXT_LEFT : Nat
  SPU_VOL_EXT_RIGHT : Nat
  SPU_VOICES : Nat → SPUVoice

/-- A store to one register block: `SPU_VOICES[voiceID].field = ...`. -/
def State.setVoice (s : State) (voiceID : Nat) (f : SPUVoice → SPUVoice) : State :=
  { s with SPU_VOICES := Function.update s.SPU_VOICES voiceID (f (s.SPU_VOICES voiceID)) }

/-- A store to one cell of `g_CurrentParameterValues`. -/
def State.setValue (s : State) (i : Nat) (v : Nat) : State :=
  { s with g_CurrentParameterValues := Function.update s.g_CurrentParameterValues i v }

/-! SPU helpers -/

/-- The function `SPUInit`. -/
def SPUInit (s : State) : State :=
  let s := { s with DPCR := u32 (s.DPCR ||| 0x000b0000) }
  let s := { s with SPU_VOL_MAIN_LEFT := 0x3800 }
  let s := { s with SPU_VOL_MAIN_RIGHT := 0x3800 }
  let s := { s with SPU_CTRL := 0 }
  let s := { s with SPU_KEY_ON_LOW := 0 }
  let s := { s with SPU_KEY_ON_HIGH := 0 }
  let s := { s with SPU_KEY_OFF_LOW := 0xffff }
  let s := { s with SPU_KEY_OFF_HIGH := 0xffff }
  let s := { s with SPU_RAM_DTC := 4 }
  let s := { s with SPU_VOL_CD_LEFT := 0 }
  let s := { s with SPU_VOL_CD_RIGHT := 0 }
  let s := { s with SPU_PITCH_MOD_LOW := 0 }
  let s := { s with SPU_PITCH_MOD_HIGH := 0 }
  let s := { s with SPU_NOISE_EN_LOW := 0 }
  let s := { s with SPU_NOISE_EN_HIGH := 0 }
  let s := { s with SPU_REVERB_EN_LOW := 0 }
  let s := { s with SPU_REVERB_EN_HIGH := 0 }
  let s := { s with SPU_VOL_EXT_LEFT := 0 }
  let s := { s with SPU_VOL_EXT_RIGHT := 0 }
  { s with SPU_CTRL := 0x8000 }

/-- The function `SPUResetVoice`. -/
def SPUResetVoice (voiceID : Nat) (s : State) : State :=
  let s := s.setVoice voiceID fun v => { v with volumeLeft := 0 }
  let s := s.setVoice voiceID fun v => { v with volumeRight := 0 }
  let s := s.setVoice voiceID fun v => { v with sampleRate := 0 }
  let s := s.setVoice voiceID fun v => { v with sampleStartAddr := 0 }
  let s := s.setVoice voiceID fun v => { v with ad := 0x000f }
  let s := s.setVoice voiceID fun v => { v with currentVolume := 0 }
  let s := s.setVoice voiceID fun v => { v with sampleRepeatAddr := 0 }
  s.setVoice voiceID fun v => { v with sr := 0x0000 }

/-- The loop `while ((SPU_CTRL & 0x0030) != 0x0020) ;` over the successive values
read from `SPU_CTRL`: `some ()` when a read ends the loop, `none` when no read in
the list does. -/
def waitTransferMode : List Nat → Option Unit
  | [] => none
  | r :: rs => if r &&& 0x0030 ≠ 0x0020 then waitTransferMode rs else some ()

/-- The loop `while ((DMA_CTRL[DMA_SPU].CHCR & 0x01000000) != 0) ;` over the
successive values read from the channel's `CHCR`. -/
def waitDmaDone : List Nat → Option Unit
  | [] => none
  | r :: rs => if r &&& 0x01000000 ≠ 0 then waitDmaDone rs else some ()

/-- The block-count / block-size word that `SPUUploadInstruments` computes in its
local `bcr`. -/
def uploadBcr (size : Nat) : Nat :=
  let bcr := size >>> 6
  let bcr := if size &&& 0x3f ≠ 0 then u32 (bcr + 1) else bcr
  let bcr := u32 (bcr <<< 16)
  bcr ||| 0x10

/-- The block count that `SPUUploadInstruments` holds in its local `bcr` after
`bcr = size >> 6; if (size & 0x3f) bcr++;` and before `bcr <<= 16`. -/
def uploadBlockCount (size : Nat) : Nat :=
  let bcr := size >>> 6
  let bcr := if size &&& 0x3f ≠ 0 then u32 (bcr + 1) else bcr
  bcr

/-- The function `SPUUploadInstruments`; `data` is the address held by the
pointer argument, `ctrlReads` and `chcrReads` are the values the two polling
loops read. -/
def SPUUploadInstruments (SpuAddr data size : Nat) (ctrlReads chcrReads : List Nat)
    (s : State) : Option State :=
  let bcr := uploadBcr size
  let s := { s with SPU_RAM_DTA := u16 (SpuAddr >>> 3) }
  let s := { s with SPU_CTRL := u16 ((s.SPU_CTRL &&& 0xFFFFFFCF) ||| 0x0020) }
  match waitTransferMode ctrlReads with
  | none => none
  | some () =>
    let s := { s with SBUS_DEV4_CTRL := s.SBUS_DEV4_CTRL &&& 0xF0FFFFFF }
    let s := { s with DMA_SPU_MADR := u32 data }
    let s := { s with DMA_SPU_BCR := bcr }
    let s := { s with DMA_SPU_CHCR := 0x01000201 }
    match waitDmaDone chcrReads with
    | none => none
    | some () => some s

/-- The function `SPUUnMute`. -/
def SPUUnMute (s : State) : State := { s with SPU_CTRL := 0xc000 }

/-- The function `SPUSetVoiceVolume` (`uint32_t` product, then a 16-bit store). -/
def SPUSetVoiceVolume (voiceID left right : Nat) (s : State) : State :=
  let s := s.setVoice voiceID fun v =>
    { v with volumeLeft := u16 (u32 (left * s.s_masterVolume) >>> 16) }
  s.setVoice voiceID fun v =>
    { v with volumeRight := u16 (u32 (right * s.s_masterVolume) >>> 16) }

/-- The function `SPUSetStartAddress`. -/
def SPUSetStartAddress (voiceID spuAddr : Nat) (s : State) : State :=
  s.setVoice voiceID fun v => { v with sampleStartAddr := u16 (spuAddr >>> 3) }

/-- The function `SPUWaitIdle`: each turn of the `do ... while` loop spins and
then reads `SPU_STATUS`; the list holds the successive values read. -/
def SPUWaitIdle : List Nat → Option Unit
  | [] => none
  | r :: rs => if r &&& 0x07ff ≠ 0 then SPUWaitIdle rs else some ()

/-! The envelope -/

abbrev ATTACK_MODE : Nat := 15
abbrev ATTACK_SHIFT : Nat := 10
abbrev ATTACK_STEP : Nat := 8
abbrev DECAY_SHIFT : Nat := 4
abbrev SUSTAIN_LEVEL : Nat := 0
abbrev SUSTAIN_MODE : Nat := 31
abbrev SUSTAIN_DIR : Nat := 30
abbrev UNUSED : Nat := 29
abbrev SUSTAIN_SHIFT : Nat := 24
abbrev SUSTAIN_STEP : Nat := 22
abbrev RELEASE_MODE : Nat := 21
abbrev RELEASE_SHIFT : Nat := 16

/-- The local `ADSR` of `UpdateADSR` after its eleven `|=` statements.  Each
operand is a `uint8_t` shifted as a 32-bit `int` and converted to `uint32_t`. -/
def packADSR (g_CurrentParameterValues : Nat → Nat) : Nat :=
  let ADSR := 0
  let ADSR := ADSR ||| u32 (g_CurrentParameterValues EParameters.AttackMode <<< ATTACK_MODE)
  let ADSR := ADSR ||| u32 (g_CurrentParameterValues EParameters.AttackShift <<< ATTACK_SHIFT)
  let ADSR := ADSR ||| u32 (g_CurrentParameterValues EParameters.AttackStep <<< ATTACK_STEP)
  let ADSR := ADSR ||| u32 (g_CurrentParameterValues EParameters.DecayShift <<< DECAY_SHIFT)
  let ADSR := ADSR ||| u32 (g_CurrentParameterValues EParameters.SustainLevel <<< SUSTAIN_LEVEL)
  let ADSR := ADSR ||| u32 (g_CurrentParameterValues EParameters.SustainMode <<< SUSTAIN_MODE)
  let ADSR := ADSR ||| u32 (g_CurrentParameterValues EParameters.SustainDir <<< SUSTAIN_DIR)
  let ADSR := ADSR ||| u32 (g_CurrentParameterValues EParameters.SustainShift <<< SUSTAIN_SHIFT)
  let ADSR := ADSR ||| u32 (g_CurrentParameterValues EParameters.SustainStep <<< SUSTAIN_STEP)
  let ADSR := ADSR ||| u32 (g_CurrentParameterValues EParameters.ReleaseMode <<< RELEASE_MODE)
  let ADSR := ADSR ||| u32 (g_CurrentParameterValues EParameters.ReleaseShift <<< RELEASE_SHIFT)
  ADSR

/-- The function `UpdateADSR`. -/
def UpdateADSR (s : State) : State :=
  let voiceID := 0
  let ADSR := packADSR s.g_CurrentParameterValues
  let s := s.setVoice voiceID fun v => { v with ad := u16 (ADSR &&& 0xFFFF) }
  s.setVoice voiceID fun v => { v with sr := u16 (ADSR >>> 16) }

/-! Pad events -/

/-- Modelled from the spec: the pad's button type is declared outside `src/`; the
handler names six buttons and sends every other one to its `default` case. -/
inductive Button where
  | Up
  | Down
  | Left
  | Right
  | Cross
  | Circle
  | Other (code : Nat)
deriving DecidableEq

/-- Modelled from the spec: the event kind is declared outside `src/`; the handler
tells `ButtonPressed` from every other kind. -/
inductive EventType where
  | ButtonPressed
  | Other (code : Nat)
deriving DecidableEq

/-- The fields of the pad event that `OnButtonPress` reads. -/
structure Event where
  type : EventType
  button : Button
deriving DecidableEq

/-- The function `OnButtonPress`; `spuStatus` holds the successive values of
`SPU_STATUS` that `SPUWaitIdle` reads while this event is handled. -/
def OnButtonPress (spuStatus : List Nat) (s : State) (in_Event : Event) : Option State :=
  if in_Event.type = EventType.ButtonPressed then
    match in_Event.button with
    | Button.Up =>
      let next :=
        if s.g_CurrentSelection = 0 then EParameters.NUM - 1
        else u8 ((s.g_CurrentSelection - 1) % EParameters.NUM)
      some { s with g_CurrentSelection := next }
    | Button.Down =>
      some { s with g_CurrentSelection := u8 ((s.g_CurrentSelection + 1) % EParameters.NUM) }
    | Button.Left =>
      let Value := s.g_CurrentParameterValues s.g_CurrentSelection
      let Range := s.g_ParameterRanges s.g_CurrentSelection
      if Value ≠ Range.m_Min then
        let s := s.setValue s.g_CurrentSelection (u8 (Value + 255))
        some (UpdateADSR s)
      else some s
    | Button.Right =>
      let Value := s.g_CurrentParameterValues s.g_CurrentSelection
      let Range := s.g_ParameterRanges s.g_CurrentSelection
      if Value ≠ Range.m_Max then
        let s := s.setValue s.g_CurrentSelection (u8 (Value + 1))
        some (UpdateADSR s)
      else some s
    | Button.Cross =>
      match SPUWaitIdle spuStatus with
      | none => none
      | some () =>
        let voiceID := 0
        some { s with SPU_KEY_ON_LOW := u16 (1 <<< voiceID) }
    | Button.Circle =>
      match SPUWaitIdle spuStatus with
      | none => none
      | some () =>
        let voiceID := 0
        some { s with SPU_KEY_OFF_LOW := u16 (1 <<< voiceID) }
    | Button.Other _ => some s
  else some s

/-- The core of `Hello::prepare` (the GPU configuration and the registration of
the event callback belong to the framework and touch none of the state above).
`sine` and `sineSize` stand for `Instrument::SINE` and `Instrument::SINE_SIZE`
of `sound.h`. -/
def prepare (sine sineSize : Nat) (ctrlReads chcrReads : List Nat) (s : State) :
    Option State :=
  let voiceID := 0
  let s := SPUInit s
  match SPUUploadInstruments 0x1010 sine sineSize ctrlReads chcrReads s with
  | none => none
  | some s =>
    let s := SPUUnMute s
    let s := SPUResetVoice voiceID s
    let volume := 63
    let s := SPUSetVoiceVolume 0 (volume <<< 8) (volume <<< 8) s
    let s := UpdateADSR s
    let s := s.setVoice voiceID fun v => { v with sampleRate := 0x800 }
    let s := s.setVoice voiceID fun v => { v with currentVolume := 0 }
    some (s.setVoice voiceID fun v => { v with sampleRepeatAddr := u16 (0x1010 + 5000) })

/-- The state in which `Hello::prepare` starts: the globals hold their
initialisers, the registers hold whatever `hw` holds. -/
def bootState (hw : State) : State :=
  { hw with
    g_ParameterRanges := g_ParameterRanges_init
    g_CurrentParameterValues := g_CurrentParameterValues_init
    g_CurrentSelection := EParameters.AttackMode
    s_masterVolume := 16384 }

/-- A register file with every register and every global cleared; a concrete
starting point for evaluation. -/
def zeroState : State :=
  { g_ParameterRanges := fun _ => {}
    g_CurrentParameterValues := fun _ => 0
    g_CurrentSelection := 0
    s_masterVolume := 0
    DPCR := 0, SBUS_DEV4_CTRL := 0, DMA_SPU_MADR := 0, DMA_SPU_BCR := 0, DMA_SPU_CHCR := 0
    SPU_VOL_MAIN_LEFT := 0, SPU_VOL_MAIN_RIGHT := 0, SPU_CTRL := 0
    SPU_KEY_ON_LOW := 0, SPU_KEY_ON_HIGH := 0, SPU_KEY_OFF_LOW := 0, SPU_KEY_OFF_HIGH := 0
    SPU_RAM_DTA := 0, SPU_RAM_DTC := 0, SPU_VOL_CD_LEFT := 0, SPU_VOL_CD_RIGHT := 0
    SPU_PITCH_MOD_LOW := 0, SPU_PITCH_MOD_HIGH := 0
    SPU_NOISE_EN_LOW := 0, SPU_NOISE_EN_HIGH := 0
    SPU_REVERB_EN_LOW := 0, SPU_REVERB_EN_HIGH := 0
    SPU_VOL_EXT_LEFT := 0, SPU_VOL_EXT_RIGHT := 0
    SPU_VOICES := fun _ => ⟨0, 0, 0, 0, 0, 0, 0, 0⟩ }

/-- Handling a sequence of events, each with the `SPU_STATUS` values read while
it is handled. -/
def runEvents (s : State) : List (List Nat × Event) → Option State
  | [] => some s
  | (spuStatus, e) :: rest =>
    match OnButtonPress spuStatus s e with
    | none => none
    | some s => runEvents s rest

/-! Predicates and the envelope as the specification words it -/

/-- Every one of the twelve values lies within its range in `ranges`. -/
def ValuesInRange (ranges : Nat → FParameterRange) (values : Nat → Nat) : Prop :=
  ∀ i, i < EParameters.NUM → (ranges i).m_Min ≤ values i ∧ values i ≤ (ranges i).m_Max

instance (ranges : Nat → FParameterRange) (values : Nat → Nat) :
    Decidable (ValuesInRange ranges values) := by
  unfold ValuesInRange; infer_instance

/-- The AD word in the specification's words:
`(AttackMode<<15)|(AttackShift<<10)|(AttackStep<<8)|(DecayShift<<4)|SustainLevel`. -/
def envelopeAD (values : Nat → Nat) : Nat :=
  (values EParameters.AttackMode <<< 15) ||| (values EParameters.AttackShift <<< 10)
    ||| (values EParameters.AttackStep <<< 8) ||| (values EParameters.DecayShift <<< 4)
    ||| values EParameters.SustainLevel

/-- The SR word in the specification's words:
`(SustainMode<<15)|(SustainDir<<14)|(SustainShift<<8)|(SustainStep<<6)|(ReleaseMode<<5)|ReleaseShift`. -/
def envelopeSR (values : Nat → Nat) : Nat :=
  (values EParameters.SustainMode <<< 15) ||| (values EParameters.SustainDir <<< 14)
    ||| (values EParameters.SustainShift <<< 8) ||| (values EParameters.SustainStep <<< 6)
    ||| (values EParameters.ReleaseMode <<< 5) ||| values EParameters.ReleaseShift

/-- The 32-bit envelope in the specification's words: the eleven fields at bit
offsets 15, 10, 8, 4, 0 and 31, 30, 24, 22, 21, 16. -/
def envelope32 (values : Nat → Nat) : Nat :=
  (values EParameters.AttackMode <<< 15) ||| (values EParameters.AttackShift <<< 10)
    ||| (values EParameters.AttackStep <<< 8) ||| (values EParameters.DecayShift <<< 4)
    ||| (values EParameters.SustainLevel <<< 0)
    ||| (values EParameters.SustainMode <<< 31) ||| (values EParameters.SustainDir <<< 30)
    ||| (values EParameters.SustainShift <<< 24) ||| (values EParameters.SustainStep <<< 22)
    ||| (values EParameters.ReleaseMode <<< 21) ||| (values EParameters.ReleaseShift <<< 16)

/-- The values of the state lie within the ranges of the state. -/
def InRange (s : State) : Prop :=
  ValuesInRange s.g_ParameterRanges s.g_CurrentParameterValues

instance (s : State) : Decidable (InRange s) := by
  unfold InRange; infer_instance

/-- The upper bounds of the range table fit the `uint8_t` they are stored in. -/
def RangesTyped (s : State) : Prop :=
  ∀ i, i < EParameters.NUM → (s.g_ParameterRanges i).m_Max < 2 ^ 8

instance (s : State) : Decidable (RangesTyped s) := by
  unfold RangesTyped; infer_instance

/-- Some read of `SPU_STATUS` in the list shows no voice in transition, so that
`SPUWaitIdle` leaves its loop. -/
def IdleSeen (spuStatus : List Nat) : Prop :=
  ∃ r, r ∈ spuStatus ∧ r &&& 0x07ff = 0

instance (spuStatus : List Nat) : Decidable (IdleSeen spuStatus) := by
  unfold IdleSeen; infer_instance

/-- The write-through invariant: the program's range table, values in range, and
voice 0's envelope words equal to the encoding of the values. -/
def WriteThrough (s : State) : Prop :=
  s.g_ParameterRanges = g_ParameterRanges_init ∧ InRange s ∧
  (s.SPU_VOICES 0).ad = envelopeAD s.g_CurrentParameterValues ∧
  (s.SPU_VOICES 0).sr = envelopeSR s.g_CurrentParameterValues

/-- The contents of a voice's register block after the eight stores of
`SPUResetVoice`. -/
def resetBlock : SPUVoice :=
  { volumeLeft := 0, volumeRight := 0, sampleRate := 0, sampleStartAddr := 0,
    ad := 0x000f, sr := 0x0000, currentVolume := 0, sampleRepeatAddr := 0 }

/-- The state with the AD and SR words of voice 0 replaced and nothing else
touched. -/
def State.withEnvelope0 (s : State) (ad sr : Nat) : State :=
  s.setVoice 0 fun v => { v with ad := ad, sr := sr }

/-- The decoding in the specification's words: parameter `i` is read back from
the AD word (parameters 0 to 4) or the SR word (parameters 5 to 10) by shifting
right by the field's offset and masking to the field's width. -/
def unpackADSR (ad sr : Nat) (i : Nat) : Nat :=
  [ (ad >>> 15) &&& 0x01, -- AttackMode, 1 bit
    (ad >>> 10) &&& 0x1F, -- AttackShift, 5 bits
    (ad >>> 8) &&& 0x03,  -- AttackStep, 2 bits
    (ad >>> 4) &&& 0x0F,  -- DecayShift, 4 bits
    (ad >>> 0) &&& 0x0F,  -- SustainLevel, 4 bits
    (sr >>> 15) &&& 0x01, -- SustainMode, 1 bit
    (sr >>> 14) &&& 0x01, -- SustainDir, 1 bit
    (sr >>> 8) &&& 0x1F,  -- SustainShift, 5 bits
    (sr >>> 6) &&& 0x03,  -- SustainStep, 2 bits
    (sr >>> 5) &&& 0x01,  -- ReleaseMode, 1 bit
    (sr >>> 0) &&& 0x1F   -- ReleaseShift, 5 bits
  ].getD i 0

/-- A press of the given button. -/
def press (b : Button) : Event := { type := EventType.ButtonPressed, button := b }

/-- A state for evaluation: the program's range table and master volume, the
given parameter values and cursor, every register cleared. -/
def stateWith (values : List Nat) (cursor : Nat) : State :=
  { bootState zeroState with
    g_CurrentParameterValues := fun i => values.getD i 0
    g_CurrentSelection := cursor }

/-! Bit-level lemmas -/

theorem or_and_distrib (a b m : Nat) : (a ||| b) &&& m = (a &&& m) ||| (b &&& m) := by
  apply Nat.eq_of_testBit_eq
  intro i
  simp [Bool.and_or_distrib_right]

theorem or_shiftRight_distrib (a b k : Nat) : (a ||| b) >>> k = (a >>> k) ||| (b >>> k) := by
  apply Nat.eq_of_testBit_eq
  intro i
  simp

theorem u32_lt (x : Nat) : u32 x < 2 ^ 32 := Nat.mod_lt _ (by decide)

theorem u16_and_mask (x : Nat) : u16 (x &&& 0xFFFF) = x &&& 0xFFFF := by
  have h : x &&& 0xFFFF = x % 2 ^ 16 := Nat.and_pow_two_sub_one_eq_mod x 16
  rw [h]
  exact Nat.mod_mod _ _

theorem u16_shiftRight_of_lt (x : Nat) (h : x < 2 ^ 32) : u16 (x >>> 16) = x >>> 16 := by
  unfold u16
  apply Nat.mod_eq_of_lt
  rw [Nat.shiftRight_eq_div_pow]
  omega

theorem packADSR_lt (values : Nat → Nat) : packADSR values < 2 ^ 32 := by
  unfold packADSR
  repeat first
    | exact u32_lt _
    | exact Nat.two_pow_pos 32
    | apply Nat.or_lt_two_pow

/-- A field of at most five bits placed wholly inside the low half. -/
theorem field_low (v k : Nat) (hv : v ≤ 31) (hk : k ≤ 10) :
    u32 (v <<< k) &&& 0xFFFF = v <<< k ∧ u32 (v <<< k) >>> 16 = 0 := by
  interval_cases k <;> interval_cases v <;> exact ⟨rfl, rfl⟩

/-- The one-bit field at offset 15. -/
theorem field_low15 (v : Nat) (hv : v ≤ 1) :
    u32 (v <<< 15) &&& 0xFFFF = v <<< 15 ∧ u32 (v <<< 15) >>> 16 = 0 := by
  interval_cases v <;> exact ⟨rfl, rfl⟩

/-- A field of at most five bits placed at offset 16 to 24 lands wholly inside the
high half. -/
theorem field_high (v k : Nat) (hv : v ≤ 31) (hk : k ≤ 8) :
    u32 (v <<< (16 + k)) &&& 0xFFFF = 0 ∧ u32 (v <<< (16 + k)) >>> 16 = v <<< k := by
  interval_cases k <;> interval_cases v <;> exact ⟨rfl, rfl⟩

/-- The one-bit fields at offsets 30 and 31. -/
theorem field_high_bit (v k : Nat) (hv : v ≤ 1) (hk : k ≤ 15) :
    u32 (v <<< (16 + k)) &&& 0xFFFF = 0 ∧ u32 (v <<< (16 + k)) >>> 16 = v <<< k := by
  interval_cases k <;> interval_cases v <;> exact ⟨rfl, rfl⟩

/-- The bounds that the program's range table puts on the eleven envelope
parameters. -/
theorem bounds_of_inRange (values : Nat → Nat)
    (h : ValuesInRange g_ParameterRanges_init values) :
    values 0 ≤ 1 ∧ values 1 ≤ 31 ∧ values 2 ≤ 3 ∧ values 3 ≤ 15 ∧ values 4 ≤ 15 ∧
    values 5 ≤ 1 ∧ values 6 ≤ 1 ∧ values 7 ≤ 31 ∧ values 8 ≤ 3 ∧ values 9 ≤ 1 ∧
    values 10 ≤ 31 :=
  ⟨(h 0 (by decide)).2, (h 1 (by decide)).2, (h 2 (by decide)).2, (h 3 (by decide)).2,
   (h 4 (by decide)).2, (h 5 (by decide)).2, (h 6 (by decide)).2, (h 7 (by decide)).2,
   (h 8 (by decide)).2, (h 9 (by decide)).2, (h 10 (by decide)).2⟩

/-- The two halves of the packed word, for in-range values. -/
theorem packADSR_halves (values : Nat → Nat)
    (h : ValuesInRange g_ParameterRanges_init values) :
    packADSR values &&& 0xFFFF = envelopeAD values ∧
    packADSR values >>> 16 = envelopeSR values := by
  obtain ⟨h0, h1, h2, h3, h4, h5, h6, h7, h8, h9, h10⟩ := bounds_of_inRange values h
  have a0 := field_low15 (values 0) h0
  have a1 := field_low (values 1) 10 h1 (by decide)
  have a2 := field_low (values 2) 8 (by omega) (by decide)
  have a3 := field_low (values 3) 4 (by omega) (by decide)
  have a4 := field_low (values 4) 0 (by omega) (by decide)
  have a5 := field_high_bit (values 5) 15 h5 (by decide)
  have a6 := field_high_bit (values 6) 14 h6 (by decide)
  have a7 := field_high (values 7) 8 h7 (by decide)
  have a8 := field_high (values 8) 6 (by omega) (by decide)
  have a9 := field_high (values 9) 5 (by omega) (by decide)
  have a10 := field_high (values 10) 0 h10 (by decide)
  simp only [Nat.reduceAdd] at a5 a6 a7 a8 a9 a10
  simp only [Nat.shiftLeft_zero] at a4 a10
  constructor
  · simp only [packADSR, envelopeAD, or_and_distrib, a0.1, a1.1, a2.1, a3.1, a4.1, a5.1,
      a6.1, a7.1, a8.1, a9.1, a10.1, Nat.or_zero, Nat.zero_or, Nat.zero_and,
      Nat.shiftLeft_zero]
  · simp only [packADSR, envelopeSR, or_shiftRight_distrib, a0.2, a1.2, a2.2, a3.2, a4.2,
      a5.2, a6.2, a7.2, a8.2, a9.2, a10.2, Nat.or_zero, Nat.zero_or, Nat.zero_shiftRight,
      Nat.shiftLeft_zero]

/-! What `UpdateADSR` touches -/

@[simp] theorem UpdateADSR_values (s : State) :
    (UpdateADSR s).g_CurrentParameterValues = s.g_CurrentParameterValues := rfl

@[simp] theorem UpdateADSR_ranges (s : State) :
    (UpdateADSR s).g_ParameterRanges = s.g_ParameterRanges := rfl

@[simp] theorem UpdateADSR_selection (s : State) :
    (UpdateADSR s).g_CurrentSelection = s.g_CurrentSelection := rfl

theorem UpdateADSR_ad (s : State) :
    ((UpdateADSR s).SPU_VOICES 0).ad = packADSR s.g_CurrentParameterValues &&& 0xFFFF := by
  simp [UpdateADSR, State.setVoice, u16_and_mask]

theorem UpdateADSR_sr (s : State) :
    ((UpdateADSR s).SPU_VOICES 0).sr = packADSR s.g_CurrentParameterValues >>> 16 := by
  simp [UpdateADSR, State.setVoice, u16_shiftRight_of_lt _ (packADSR_lt _)]

/-- For in-range values the 32-bit word of the specification is the local `ADSR`. -/
theorem envelope32_eq_packADSR (values : Nat → Nat)
    (h : ValuesInRange g_ParameterRanges_init values) :
    envelope32 values = packADSR values := by
  obtain ⟨h0, h1, h2, h3, h4, h5, h6, h7, h8, h9, h10⟩ := bounds_of_inRange values h
  have e : ∀ v k : Nat, v ≤ 31 → k ≤ 24 → u32 (v <<< k) = v <<< k := by
    intro v k hv hk
    interval_cases k <;> interval_cases v <;> rfl
  have b : ∀ v k : Nat, v ≤ 1 → k ≤ 31 → u32 (v <<< k) = v <<< k := by
    intro v k hv hk
    interval_cases v <;> interval_cases k <;> rfl
  simp only [packADSR, envelope32, Nat.zero_or,
    b (values 0) 15 h0 (by decide), e (values 1) 10 h1 (by decide),
    e (values 2) 8 (by omega) (by decide), e (values 3) 4 (by omega) (by decide),
    e (values 4) 0 (by omega) (by decide), b (values 5) 31 h5 (by decide),
    b (values 6) 30 h6 (by decide), e (values 7) 24 h7 (by decide),
    e (values 8) 22 (by omega) (by decide), e (values 9) 21 (by omega) (by decide),
    e (values 10) 16 h10 (by decide)]

/-! The shape of one handled event -/

theorem SPUWaitIdle_of_idleSeen (spuStatus : List Nat) (h : IdleSeen spuStatus) :
    SPUWaitIdle spuStatus = some () := by
  induction spuStatus with
  | nil =>
    obtain ⟨r, hr, _⟩ := h
    simp at hr
  | cons a rest ih =>
    unfold SPUWaitIdle
    by_cases ha : a &&& 0x07ff = 0
    · simp [ha]
    · have hrest : IdleSeen rest := by
        obtain ⟨r, hr, h0⟩ := h
        rcases List.mem_cons.1 hr with rfl | hm
        · exact absurd h0 ha
        · exact ⟨r, hm, h0⟩
      simp [ha, ih hrest]

/-- With an idle read among the status values, the handler returns. -/
theorem OnButtonPress_returns (spuStatus : List Nat) (s : State) (e : Event)
    (h : IdleSeen spuStatus) : ∃ s', OnButtonPress spuStatus s e = some s' := by
  have hw := SPUWaitIdle_of_idleSeen spuStatus h
  obtain ⟨t, b⟩ := e
  cases t with
  | Other code => simp [OnButtonPress]
  | ButtonPressed =>
    cases b with
    | Up => simp [OnButtonPress]
    | Down => simp [OnButtonPress]
    | Left =>
      by_cases hv : s.g_CurrentParameterValues s.g_CurrentSelection
          = (s.g_ParameterRanges s.g_CurrentSelection).m_Min
      · simp [OnButtonPress, hv]
      · simp [OnButtonPress, hv]
    | Right =>
      by_cases hv : s.g_CurrentParameterValues s.g_CurrentSelection
          = (s.g_ParameterRanges s.g_CurrentSelection).m_Max
      · simp [OnButtonPress, hv]
      · simp [OnButtonPress, hv]
    | Cross => simp [OnButtonPress, hw]
    | Circle => simp [OnButtonPress, hw]
    | Other code => simp [OnButtonPress]

/-- Whatever the event, the handler leaves the range table alone, and either
leaves the values and the voice registers alone too, or stores the selected value
plus or minus one and runs `UpdateADSR`. -/
theorem OnButtonPress_shape (spuStatus : List Nat) (s s' : State) (e : Event)
    (h : OnButtonPress spuStatus s e = some s') :
    s'.g_ParameterRanges = s.g_ParameterRanges ∧
    ((s'.g_CurrentParameterValues = s.g_CurrentParameterValues ∧
        s'.SPU_VOICES = s.SPU_VOICES) ∨
     (s.g_CurrentParameterValues s.g_CurrentSelection
          ≠ (s.g_ParameterRanges s.g_CurrentSelection).m_Max ∧
        s' = UpdateADSR (s.setValue s.g_CurrentSelection
          (u8 (s.g_CurrentParameterValues s.g_CurrentSelection + 1)))) ∨
     (s.g_CurrentParameterValues s.g_CurrentSelection
          ≠ (s.g_ParameterRanges s.g_CurrentSelection).m_Min ∧
        s' = UpdateADSR (s.setValue s.g_CurrentSelection
          (u8 (s.g_CurrentParameterValues s.g_CurrentSelection + 255))))) := by
  obtain ⟨t, b⟩ := e
  cases t with
  | Other code =>
    simp only [OnButtonPress, reduceCtorEq, if_false, Option.some.injEq] at h
    subst h
    exact ⟨rfl, Or.inl ⟨rfl, rfl⟩⟩
  | ButtonPressed =>
    cases b with
    | Up =>
      simp only [OnButtonPress, if_true, Option.some.injEq] at h
      subst h
      exact ⟨rfl, Or.inl ⟨rfl, rfl⟩⟩
    | Down =>
      simp only [OnButtonPress, if_true, Option.some.injEq] at h
      subst h
      exact ⟨rfl, Or.inl ⟨rfl, rfl⟩⟩
    | Left =>
      by_cases hv : s.g_CurrentParameterValues s.g_CurrentSelection
          = (s.g_ParameterRanges s.g_CurrentSelection).m_Min
      · simp [OnButtonPress, hv] at h
        subst h
        exact ⟨rfl, Or.inl ⟨rfl, rfl⟩⟩
      · simp [OnButtonPress, hv] at h
        subst h
        exact ⟨rfl, Or.inr (Or.inr ⟨hv, rfl⟩)⟩
    | Right =>
      by_cases hv : s.g_CurrentParameterValues s.g_CurrentSelection
          = (s.g_ParameterRanges s.g_CurrentSelection).m_Max
      · simp [OnButtonPress, hv] at h
        subst h
        exact ⟨rfl, Or.inl ⟨rfl, rfl⟩⟩
      · simp [OnButtonPress, hv] at h
        subst h
        exact ⟨rfl, Or.inr (Or.inl ⟨hv, rfl⟩)⟩
    | Cross =>
      cases hw : SPUWaitIdle spuStatus with
      | none => simp [OnButtonPress, hw] at h
      | some u =>
        simp [OnButtonPress, hw] at h
        subst h
        exact ⟨rfl, Or.inl ⟨rfl, rfl⟩⟩
    | Circle =>
      cases hw : SPUWaitIdle spuStatus with
      | none => simp [OnButtonPress, hw] at h
      | some u =>
        simp [OnButtonPress, hw] at h
        subst h
        exact ⟨rfl, Or.inl ⟨rfl, rfl⟩⟩
    | Other code =>
      simp only [OnButtonPress, if_true, Option.some.injEq] at h
      subst h
      exact ⟨rfl, Or.inl ⟨rfl, rfl⟩⟩

/-- One handled event keeps the values within the (unchanged) ranges. -/
theorem OnButtonPress_inRange (spuStatus : List Nat) (s s' : State) (e : Event)
    (ht : RangesTyped s) (hr : InRange s) (h : OnButtonPress spuStatus s e = some s') :
    InRange s' ∧ s'.g_ParameterRanges = s.g_ParameterRanges := by
  obtain ⟨hranges, hshape⟩ := OnButtonPress_shape spuStatus s s' e h
  refine ⟨?_, hranges⟩
  unfold InRange
  rw [hranges]
  rcases hshape with ⟨hv, _⟩ | ⟨hne, rfl⟩ | ⟨hne, rfl⟩
  · rw [hv]; exact hr
  · intro i hi
    have hri := hr i hi
    have hti := ht i hi
    by_cases hc : i = s.g_CurrentSelection
    · subst hc
      simp only [UpdateADSR_values, State.setValue, Function.update_same, u8]
      omega
    · simpa [State.setValue, Function.update_noteq hc] using hri
  · intro i hi
    have hri := hr i hi
    have hti := ht i hi
    by_cases hc : i = s.g_CurrentSelection
    · subst hc
      simp only [UpdateADSR_values, State.setValue, Function.update_same, u8]
      omega
    · simpa [State.setValue, Function.update_noteq hc] using hri

/-- A run of events keeps the values within the (unchanged) ranges. -/
theorem runEvents_inRange (es : List (List Nat × Event)) :
    ∀ s s' : State, RangesTyped s → InRange s → runEvents s es = some s' →
      InRange s' ∧ s'.g_ParameterRanges = s.g_ParameterRanges := by
  induction es with
  | nil =>
    intro s s' _ hr h
    simp only [runEvents, Option.some.injEq] at h
    subst h
    exact ⟨hr, rfl⟩
  | cons x rest ih =>
    intro s s' ht hr h
    obtain ⟨st, e⟩ := x
    cases h1 : OnButtonPress st s e with
    | none => simp [runEvents, h1] at h
    | some s1 =>
      simp only [runEvents, h1] at h
      obtain ⟨hr1, hg1⟩ := OnButtonPress_inRange st s s1 e ht hr h1
      have ht1 : RangesTyped s1 := by unfold RangesTyped; rw [hg1]; exact ht
      obtain ⟨hr2, hg2⟩ := ih s1 s' ht1 hr1 h
      exact ⟨hr2, hg2.trans hg1⟩

/-- A run of events returns when every event sees the hardware idle. -/
theorem runEvents_returns (es : List (List Nat × Event)) :
    ∀ s : State, (∀ x, x ∈ es → IdleSeen x.1) → ∃ s', runEvents s es = some s' := by
  induction es with
  | nil => intro s _; exact ⟨s, rfl⟩
  | cons x rest ih =>
    intro s hall
    obtain ⟨st, e⟩ := x
    obtain ⟨s1, h1⟩ := OnButtonPress_returns st s e (hall (st, e) (List.mem_cons_self _ _))
    obtain ⟨s2, h2⟩ := ih s1 (fun y hy => hall y (List.mem_cons_of_mem _ hy))
    exact ⟨s2, by simp only [runEvents, h1, h2]⟩

/-! C1 -/

/-- C1: for every state whose twelve values lie within the program's ranges,
`UpdateADSR` leaves in voice 0 the AD word
`(AttackMode<<15)|(AttackShift<<10)|(AttackStep<<8)|(DecayShift<<4)|SustainLevel` and the
SR word `(SustainMode<<15)|(SustainDir<<14)|(SustainShift<<8)|(SustainStep<<6)|
(ReleaseMode<<5)|ReleaseShift`, which are the low and the high 16-bit half of the
32-bit envelope with the fields at offsets 15, 10, 8, 4, 0 and 31, 30, 24, 22, 21, 16. -/
theorem UpdateADSR_writes_envelope (s : State)
    (h : ValuesInRange g_ParameterRanges_init s.g_CurrentParameterValues) :
    ((UpdateADSR s).SPU_VOICES 0).ad = envelopeAD s.g_CurrentParameterValues ∧
    ((UpdateADSR s).SPU_VOICES 0).sr = envelopeSR s.g_CurrentParameterValues ∧
    envelopeAD s.g_CurrentParameterValues = envelope32 s.g_CurrentParameterValues % 2 ^ 16 ∧
    envelopeSR s.g_CurrentParameterValues = envelope32 s.g_CurrentParameterValues / 2 ^ 16 := by
  have hh := packADSR_halves _ h
  have he := envelope32_eq_packADSR _ h
  refine ⟨?_, ?_, ?_, ?_⟩
  · rw [UpdateADSR_ad, hh.1]
  · rw [UpdateADSR_sr, hh.2]
  · rw [he, ← hh.1]
    exact Nat.and_pow_two_sub_one_eq_mod _ 16
  · rw [he, ← hh.2, Nat.shiftRight_eq_div_pow]

/-- C1 at a concrete table (every parameter at its maximum). -/
theorem UpdateADSR_writes_envelope_witness :
    ValuesInRange g_ParameterRanges_init
      (stateWith [1, 0x1F, 3, 0xF, 0xF, 1, 1, 0x1F, 3, 1, 0x1F, 1] 0).g_CurrentParameterValues ∧
    ((UpdateADSR (stateWith [1, 0x1F, 3, 0xF, 0xF, 1, 1, 0x1F, 3, 1, 0x1F, 1] 0)).SPU_VOICES 0).ad
      = 0xFFFF ∧
    ((UpdateADSR (stateWith [1, 0x1F, 3, 0xF, 0xF, 1, 1, 0x1F, 3, 1, 0x1F, 1] 0)).SPU_VOICES 0).sr
      = 0xDFFF :=
  ⟨by decide,
   (UpdateADSR_writes_envelope (stateWith [1, 0x1F, 3, 0xF, 0xF, 1, 1, 0x1F, 3, 1, 0x1F, 1] 0)
      (by decide)).1.trans (by decide),
   (UpdateADSR_writes_envelope (stateWith [1, 0x1F, 3, 0xF, 0xF, 1, 1, 0x1F, 3, 1, 0x1F, 1] 0)
      (by decide)).2.1.trans (by decide)⟩

/-! C2 -/

/-- C2: the initial parameter table lies within the ranges; from every state whose
values lie within its ranges, the state after any handled event does too and has
the same range table, and the handler returns whenever the hardware is seen idle;
hence the same holds after any finite sequence of events, in particular from the
initial globals, where the range table stays the initial one. -/
theorem range_invariant :
    ValuesInRange g_ParameterRanges_init g_CurrentParameterValues_init ∧
    (∀ (spuStatus : List Nat) (s : State) (e : Event), RangesTyped s → InRange s →
      (∀ s', OnButtonPress spuStatus s e = some s' →
        InRange s' ∧ s'.g_ParameterRanges = s.g_ParameterRanges) ∧
      (IdleSeen spuStatus → ∃ s', OnButtonPress spuStatus s e = some s')) ∧
    (∀ (s : State) (es : List (List Nat × Event)), RangesTyped s → InRange s →
      (∀ s', runEvents s es = some s' →
        InRange s' ∧ s'.g_ParameterRanges = s.g_ParameterRanges) ∧
      ((∀ x, x ∈ es → IdleSeen x.1) → ∃ s', runEvents s es = some s')) ∧
    (∀ (hw : State) (es : List (List Nat × Event)) (s' : State),
      runEvents (bootState hw) es = some s' →
        InRange s' ∧ s'.g_ParameterRanges = g_ParameterRanges_init) := by
  refine ⟨by decide, ?_, ?_, ?_⟩
  · intro spuStatus s e ht hr
    exact ⟨fun s' h => OnButtonPress_inRange spuStatus s s' e ht hr h,
      OnButtonPress_returns spuStatus s e⟩
  · intro s es ht hr
    exact ⟨fun s' h => runEvents_inRange es s s' ht hr h, runEvents_returns es s⟩
  · intro hw es s' h
    have ht : RangesTyped (bootState hw) := by
      show ∀ i, i < EParameters.NUM → (g_ParameterRanges_init i).m_Max < 2 ^ 8
      decide
    have hr : InRange (bootState hw) := by
      show ValuesInRange g_ParameterRanges_init g_CurrentParameterValues_init
      decide
    exact runEvents_inRange es (bootState hw) s' ht hr h

/-- C2 at a concrete state: `AttackStep` selected at value 2, `Right` pressed. -/
theorem range_invariant_witness :
    RangesTyped (stateWith [0, 0, 2, 0xF, 0xF, 0, 0, 0, 0, 0, 0, 0] 2) ∧
    InRange (stateWith [0, 0, 2, 0xF, 0xF, 0, 0, 0, 0, 0, 0, 0] 2) ∧
    IdleSeen [0] ∧
    (OnButtonPress [0] (stateWith [0, 0, 2, 0xF, 0xF, 0, 0, 0, 0, 0, 0, 0] 2)
        (press Button.Right)).map (fun t => decide (InRange t)) = some true :=
  ⟨by decide, by decide, by decide,
   let step := range_invariant.2.1 [0] (stateWith [0, 0, 2, 0xF, 0xF, 0, 0, 0, 0, 0, 0, 0] 2)
     (press Button.Right) (by decide) (by decide)
   (step.2 (by decide)).elim fun s' h => by
     rw [h]
     exact congrArg some (decide_eq_true (step.1 s' h).1)⟩

/-! C3 -/

/-- C3: for every valid cursor position, a `Right` press when the selected value
equals its maximum and a `Left` press when it equals its minimum return the state
they were given: no value, cursor or register changes, and nothing wraps. -/
theorem boundary_edit_is_noop (spuStatus : List Nat) (s : State)
    (_ : s.g_CurrentSelection < EParameters.NUM) :
    (s.g_CurrentParameterValues s.g_CurrentSelection
        = (s.g_ParameterRanges s.g_CurrentSelection).m_Max →
      OnButtonPress spuStatus s (press Button.Right) = some s) ∧
    (s.g_CurrentParameterValues s.g_CurrentSelection
        = (s.g_ParameterRanges s.g_CurrentSelection).m_Min →
      OnButtonPress spuStatus s (press Button.Left) = some s) := by
  constructor
  · intro h
    simp [OnButtonPress, press, h]
  · intro h
    simp [OnButtonPress, press, h]

/-- C3 at the specification's example: `AttackStep` (range 0..3) at value 3 with
`Right` pressed stays 3. -/
theorem boundary_edit_is_noop_witness :
    (stateWith [0, 0, 3, 0xF, 0xF, 0, 0, 0, 0, 0, 0, 0] EParameters.AttackStep).g_CurrentSelection
      < EParameters.NUM ∧
    (g_ParameterRanges_init EParameters.AttackStep).m_Max = 3 ∧
    (OnButtonPress [] (stateWith [0, 0, 3, 0xF, 0xF, 0, 0, 0, 0, 0, 0, 0] EParameters.AttackStep)
        (press Button.Right)).map (fun t => t.g_CurrentParameterValues EParameters.AttackStep)
      = some 3 :=
  ⟨by decide, by decide, by
    rw [(boundary_edit_is_noop []
      (stateWith [0, 0, 3, 0xF, 0xF, 0, 0, 0, 0, 0, 0, 0] EParameters.AttackStep)
      (by decide)).1 (by decide)]
    rfl⟩

/-! C4 -/

/-- The function `UpdateADSR` leaves in voice 0 the specification's encoding of the
values it read, when these lie within the program's ranges. -/
theorem UpdateADSR_encodes (s : State)
    (h : ValuesInRange g_ParameterRanges_init s.g_CurrentParameterValues) :
    ((UpdateADSR s).SPU_VOICES 0).ad = envelopeAD (UpdateADSR s).g_CurrentParameterValues ∧
    ((UpdateADSR s).SPU_VOICES 0).sr = envelopeSR (UpdateADSR s).g_CurrentParameterValues := by
  have hh := packADSR_halves _ h
  exact ⟨by rw [UpdateADSR_ad, hh.1, UpdateADSR_values],
    by rw [UpdateADSR_sr, hh.2, UpdateADSR_values]⟩

/-- C4: in a state with a valid cursor, the program's range table and all values in
range, a `Right` press with the selected value below its maximum adds exactly 1 to
that value, and a `Left` press with the selected value above its minimum subtracts
exactly 1; the other eleven values and the cursor are unchanged, and afterwards
voice 0's AD and SR registers hold the encoding of the new values. -/
theorem interior_edit (spuStatus : List Nat) (s : State)
    (hc : s.g_CurrentSelection < EParameters.NUM)
    (hd : s.g_ParameterRanges = g_ParameterRanges_init)
    (hr : InRange s) :
    (s.g_CurrentParameterValues s.g_CurrentSelection
        < (s.g_ParameterRanges s.g_CurrentSelection).m_Max →
      ∃ s', OnButtonPress spuStatus s (press Button.Right) = some s' ∧
        s'.g_CurrentParameterValues s.g_CurrentSelection
          = s.g_CurrentParameterValues s.g_CurrentSelection + 1 ∧
        (∀ i, i ≠ s.g_CurrentSelection →
          s'.g_CurrentParameterValues i = s.g_CurrentParameterValues i) ∧
        s'.g_CurrentSelection = s.g_CurrentSelection ∧
        (s'.SPU_VOICES 0).ad = envelopeAD s'.g_CurrentParameterValues ∧
        (s'.SPU_VOICES 0).sr = envelopeSR s'.g_CurrentParameterValues) ∧
    ((s.g_ParameterRanges s.g_CurrentSelection).m_Min
        < s.g_CurrentParameterValues s.g_CurrentSelection →
      ∃ s', OnButtonPress spuStatus s (press Button.Left) = some s' ∧
        s'.g_CurrentParameterValues s.g_CurrentSelection + 1
          = s.g_CurrentParameterValues s.g_CurrentSelection ∧
        (∀ i, i ≠ s.g_CurrentSelection →
          s'.g_CurrentParameterValues i = s.g_CurrentParameterValues i) ∧
        s'.g_CurrentSelection = s.g_CurrentSelection ∧
        (s'.SPU_VOICES 0).ad = envelopeAD s'.g_CurrentParameterValues ∧
        (s'.SPU_VOICES 0).sr = envelopeSR s'.g_CurrentParameterValues) := by
  have ht : RangesTyped s := by
    unfold RangesTyped
    rw [hd]
    decide
  have hsel := hr _ hc
  have htc := ht _ hc
  constructor
  · intro hlt
    have hne : s.g_CurrentParameterValues s.g_CurrentSelection
        ≠ (s.g_ParameterRanges s.g_CurrentSelection).m_Max := Nat.ne_of_lt hlt
    have hstep : OnButtonPress spuStatus s (press Button.Right)
        = some (UpdateADSR (s.setValue s.g_CurrentSelection
            (u8 (s.g_CurrentParameterValues s.g_CurrentSelection + 1)))) := by
      simp [OnButtonPress, press, hne]
    obtain ⟨hr', hg'⟩ := OnButtonPress_inRange spuStatus s _ _ ht hr hstep
    have hin : ValuesInRange g_ParameterRanges_init
        (s.setValue s.g_CurrentSelection
          (u8 (s.g_CurrentParameterValues s.g_CurrentSelection + 1))).g_CurrentParameterValues := by
      have := hr'
      unfold InRange at this
      rw [hg', hd] at this
      exact this
    have henc := UpdateADSR_encodes _ hin
    refine ⟨_, hstep, ?_, ?_, rfl, henc.1, henc.2⟩
    · simp only [UpdateADSR_values, State.setValue, Function.update_same, u8]
      omega
    · intro i hi
      simp [State.setValue, Function.update_noteq hi]
  · intro hlt
    have hne : s.g_CurrentParameterValues s.g_CurrentSelection
        ≠ (s.g_ParameterRanges s.g_CurrentSelection).m_Min := Nat.ne_of_gt hlt
    have hstep : OnButtonPress spuStatus s (press Button.Left)
        = some (UpdateADSR (s.setValue s.g_CurrentSelection
            (u8 (s.g_CurrentParameterValues s.g_CurrentSelection + 255)))) := by
      simp [OnButtonPress, press, hne]
    obtain ⟨hr', hg'⟩ := OnButtonPress_inRange spuStatus s _ _ ht hr hstep
    have hin : ValuesInRange g_ParameterRanges_init
        (s.setValue s.g_CurrentSelection
          (u8 (s.g_CurrentParameterValues s.g_CurrentSelection + 255))).g_CurrentParameterValues := by
      have := hr'
      unfold InRange at this
      rw [hg', hd] at this
      exact this
    have henc := UpdateADSR_encodes _ hin
    refine ⟨_, hstep, ?_, ?_, rfl, henc.1, henc.2⟩
    · simp only [UpdateADSR_values, State.setValue, Function.update_same, u8]
      omega
    · intro i hi
      simp [State.setValue, Function.update_noteq hi]

/-- C4 at a concrete state: `AttackShift` selected at value 5, `Right` pressed; the
value becomes 6. -/
theorem interior_edit_witness :
    (stateWith [0, 5, 0, 0xF, 0xF, 0, 0, 0, 0, 0, 0, 0] 1).g_CurrentSelection < EParameters.NUM ∧
    InRange (stateWith [0, 5, 0, 0xF, 0xF, 0, 0, 0, 0, 0, 0, 0] 1) ∧
    (OnButtonPress [] (stateWith [0, 5, 0, 0xF, 0xF, 0, 0, 0, 0, 0, 0, 0] 1)
        (press Button.Right)).map (fun t => t.g_CurrentParameterValues 1) = some 6 :=
  ⟨by decide, by decide,
   ((interior_edit [] (stateWith [0, 5, 0, 0xF, 0xF, 0, 0, 0, 0, 0, 0, 0] 1)
      (by decide) rfl (by decide)).1 (by decide)).elim
     fun s' h => by
       rw [h.1]
       exact congrArg some h.2.1⟩

/-! C5 and C6: the cursor -/

theorem OnButtonPress_down (spuStatus : List Nat) (s : State) :
    OnButtonPress spuStatus s (press Button.Down)
      = some { s with g_CurrentSelection := (s.g_CurrentSelection + 1) % 12 } := by
  have h : u8 ((s.g_CurrentSelection + 1) % 12) = (s.g_CurrentSelection + 1) % 12 := by
    unfold u8; omega
  simp [OnButtonPress, press, h]

theorem OnButtonPress_up (spuStatus : List Nat) (s : State) :
    OnButtonPress spuStatus s (press Button.Up)
      = some { s with g_CurrentSelection := (s.g_CurrentSelection + 11) % 12 } := by
  by_cases h0 : s.g_CurrentSelection = 0
  · simp [OnButtonPress, press, h0]
  · have h : u8 ((s.g_CurrentSelection - 1) % 12) = (s.g_CurrentSelection + 11) % 12 := by
      unfold u8; omega
    simp [OnButtonPress, press, h0, h]

/-- A valid cursor stays valid across any handled event. -/
theorem OnButtonPress_selection_lt (spuStatus : List Nat) (s s' : State) (e : Event)
    (hc : s.g_CurrentSelection < EParameters.NUM)
    (h : OnButtonPress spuStatus s e = some s') :
    s'.g_CurrentSelection < EParameters.NUM := by
  obtain ⟨t, b⟩ := e
  cases t with
  | Other code =>
    simp only [OnButtonPress, reduceCtorEq, if_false, Option.some.injEq] at h
    subst h
    exact hc
  | ButtonPressed =>
    cases b with
    | Up =>
      have h2 := OnButtonPress_up spuStatus s
      simp only [press] at h2
      rw [h2] at h
      simp only [Option.some.injEq] at h
      subst h
      exact Nat.mod_lt _ (by decide)
    | Down =>
      have h2 := OnButtonPress_down spuStatus s
      simp only [press] at h2
      rw [h2] at h
      simp only [Option.some.injEq] at h
      subst h
      exact Nat.mod_lt _ (by decide)
    | Left =>
      by_cases hv : s.g_CurrentParameterValues s.g_CurrentSelection
          = (s.g_ParameterRanges s.g_CurrentSelection).m_Min
      · simp [OnButtonPress, hv] at h
        subst h
        exact hc
      · simp [OnButtonPress, hv] at h
        subst h
        exact hc
    | Right =>
      by_cases hv : s.g_CurrentParameterValues s.g_CurrentSelection
          = (s.g_ParameterRanges s.g_CurrentSelection).m_Max
      · simp [OnButtonPress, hv] at h
        subst h
        exact hc
      · simp [OnButtonPress, hv] at h
        subst h
        exact hc
    | Cross =>
      cases hw : SPUWaitIdle spuStatus with
      | none => simp [OnButtonPress, hw] at h
      | some u =>
        simp [OnButtonPress, hw] at h
        subst h
        exact hc
    | Circle =>
      cases hw : SPUWaitIdle spuStatus with
      | none => simp [OnButtonPress, hw] at h
      | some u =>
        simp [OnButtonPress, hw] at h
        subst h
        exact hc
    | Other code =>
      simp only [OnButtonPress, if_true, Option.some.injEq] at h
      subst h
      exact hc

/-- A run of `Down` presses moves the cursor forward by the number of presses,
modulo 12, and keeps the values. -/
theorem runEvents_down (es : List (List Nat × Event)) :
    ∀ s : State, s.g_CurrentSelection < EParameters.NUM →
      (∀ x, x ∈ es → x.2 = press Button.Down) →
      ∃ s', runEvents s es = some s' ∧
        s'.g_CurrentSelection = (s.g_CurrentSelection + es.length) % 12 ∧
        s'.g_CurrentParameterValues = s.g_CurrentParameterValues := by
  induction es with
  | nil =>
    intro s hc _
    have hc' : s.g_CurrentSelection < 12 := hc
    exact ⟨s, rfl, by simp only [List.length_nil]; omega, rfl⟩
  | cons x rest ih =>
    intro s hc hall
    obtain ⟨st, e⟩ := x
    have he : e = press Button.Down := hall (st, e) (List.mem_cons_self _ _)
    subst he
    have hlt : (s.g_CurrentSelection + 1) % 12 < EParameters.NUM := Nat.mod_lt _ (by decide)
    obtain ⟨s', hrun, hsel, hval⟩ :=
      ih { s with g_CurrentSelection := (s.g_CurrentSelection + 1) % 12 } hlt
        (fun y hy => hall y (List.mem_cons_of_mem _ hy))
    refine ⟨s', by simp only [runEvents, OnButtonPress_down, hrun], ?_, hval⟩
    rw [hsel]
    simp only [List.length_cons]
    omega

/-- A run of `Up` presses moves the cursor by eleven per press, modulo 12, and
keeps the values. -/
theorem runEvents_up (es : List (List Nat × Event)) :
    ∀ s : State, s.g_CurrentSelection < EParameters.NUM →
      (∀ x, x ∈ es → x.2 = press Button.Up) →
      ∃ s', runEvents s es = some s' ∧
        s'.g_CurrentSelection = (s.g_CurrentSelection + 11 * es.length) % 12 ∧
        s'.g_CurrentParameterValues = s.g_CurrentParameterValues := by
  induction es with
  | nil =>
    intro s hc _
    have hc' : s.g_CurrentSelection < 12 := hc
    exact ⟨s, rfl, by simp only [List.length_nil]; omega, rfl⟩
  | cons x rest ih =>
    intro s hc hall
    obtain ⟨st, e⟩ := x
    have he : e = press Button.Up := hall (st, e) (List.mem_cons_self _ _)
    subst he
    have hlt : (s.g_CurrentSelection + 11) % 12 < EParameters.NUM := Nat.mod_lt _ (by decide)
    obtain ⟨s', hrun, hsel, hval⟩ :=
      ih { s with g_CurrentSelection := (s.g_CurrentSelection + 11) % 12 } hlt
        (fun y hy => hall y (List.mem_cons_of_mem _ hy))
    refine ⟨s', by simp only [runEvents, OnButtonPress_up st s, hrun], ?_, hval⟩
    rw [hsel]
    simp only [List.length_cons]
    omega

/-- C5: from every valid cursor position, a run of `Down` presses only, or of `Up`
presses only, returns the cursor to where it started when it has twelve presses,
and to a different kind when it has between one and eleven; the parameter values
are the same after a run of any length. -/
theorem cursor_cycle (s : State) (es : List (List Nat × Event))
    (hc : s.g_CurrentSelection < EParameters.NUM)
    (hes : (∀ x, x ∈ es → x.2 = press Button.Down) ∨ (∀ x, x ∈ es → x.2 = press Button.Up)) :
    ∃ s', runEvents s es = some s' ∧
      s'.g_CurrentParameterValues = s.g_CurrentParameterValues ∧
      (es.length = 12 → s'.g_CurrentSelection = s.g_CurrentSelection) ∧
      (0 < es.length → es.length < 12 → s'.g_CurrentSelection ≠ s.g_CurrentSelection) := by
  have hc' : s.g_CurrentSelection < 12 := hc
  rcases hes with hd | hu
  · obtain ⟨s', hrun, hsel, hval⟩ := runEvents_down es s hc hd
    refine ⟨s', hrun, hval, ?_, ?_⟩
    · intro h12
      omega
    · intro h0 h12
      omega
  · obtain ⟨s', hrun, hsel, hval⟩ := runEvents_up es s hc hu
    refine ⟨s', hrun, hval, ?_, ?_⟩
    · intro h12
      omega
    · intro h0 h12
      omega

/-- C5 at a concrete run: twelve `Down` presses from `DecayShift`. -/
theorem cursor_cycle_witness :
    (stateWith [0, 0, 0, 0xF, 0xF, 0, 0, 0, 0, 0, 0, 0] 3).g_CurrentSelection < EParameters.NUM ∧
    (runEvents (stateWith [0, 0, 0, 0xF, 0xF, 0, 0, 0, 0, 0, 0, 0] 3)
        (List.replicate 12 ([], press Button.Down))).map (fun t => t.g_CurrentSelection)
      = some 3 :=
  ⟨by decide,
   (cursor_cycle (stateWith [0, 0, 0, 0xF, 0xF, 0, 0, 0, 0, 0, 0, 0] 3)
      (List.replicate 12 ([], press Button.Down)) (by decide)
      (Or.inl (by decide))).elim
     fun s' h => by
       rw [h.1]
       exact congrArg some (h.2.2.1 (by decide))⟩

/-- C6: for every valid cursor position `c`, a `Down` press sets the cursor to
`(c+1) mod 12` and an `Up` press to `(c+11) mod 12` and change nothing else, so `Up`
from `AttackMode` selects `Waveform` and `Down` from `Waveform` selects
`AttackMode`; the cursor is below 12 after every handled event; and `Up` after
`Down`, as well as `Down` after `Up`, gives back the state. -/
theorem cursor_step (spuStatus spuStatus2 : List Nat) (s : State)
    (hc : s.g_CurrentSelection < EParameters.NUM) :
    OnButtonPress spuStatus s (press Button.Down)
      = some { s with g_CurrentSelection := (s.g_CurrentSelection + 1) % 12 } ∧
    OnButtonPress spuStatus s (press Button.Up)
      = some { s with g_CurrentSelection := (s.g_CurrentSelection + 11) % 12 } ∧
    (s.g_CurrentSelection = EParameters.AttackMode →
      (OnButtonPress spuStatus s (press Button.Up)).map (fun t => t.g_CurrentSelection)
        = some EParameters.Waveform) ∧
    (s.g_CurrentSelection = EParameters.Waveform →
      (OnButtonPress spuStatus s (press Button.Down)).map (fun t => t.g_CurrentSelection)
        = some EParameters.AttackMode) ∧
    (∀ e s', OnButtonPress spuStatus s e = some s' →
      s'.g_CurrentSelection < EParameters.NUM) ∧
    (OnButtonPress spuStatus s (press Button.Down)).bind
      (fun t => OnButtonPress spuStatus2 t (press Button.Up)) = some s ∧
    (OnButtonPress spuStatus s (press Button.Up)).bind
      (fun t => OnButtonPress spuStatus2 t (press Button.Down)) = some s := by
  have hc' : s.g_CurrentSelection < 12 := hc
  have hd := OnButtonPress_down spuStatus s
  have hu := OnButtonPress_up spuStatus s
  refine ⟨hd, hu, ?_, ?_, ?_, ?_, ?_⟩
  · intro h0
    rw [hu, h0]
    rfl
  · intro h11
    rw [hd, h11]
    rfl
  · intro e s' h
    exact OnButtonPress_selection_lt spuStatus s s' e hc h
  · rw [hd, Option.some_bind,
      OnButtonPress_up spuStatus2 _]
    have : ((s.g_CurrentSelection + 1) % 12 + 11) % 12 = s.g_CurrentSelection := by omega
    simp only [this]
  · rw [hu, Option.some_bind, OnButtonPress_down]
    have : ((s.g_CurrentSelection + 11) % 12 + 1) % 12 = s.g_CurrentSelection := by omega
    simp only [this]

/-- C6 at a concrete state: `Up` from `AttackMode`. -/
theorem cursor_step_witness :
    (stateWith [0, 0, 0, 0xF, 0xF, 0, 0, 0, 0, 0, 0, 0] 0).g_CurrentSelection < EParameters.NUM ∧
    (OnButtonPress [] (stateWith [0, 0, 0, 0xF, 0xF, 0, 0, 0, 0, 0, 0, 0] 0)
        (press Button.Up)).map (fun t => t.g_CurrentSelection) = some 11 :=
  ⟨by decide,
   (cursor_step [] [] (stateWith [0, 0, 0, 0xF, 0xF, 0, 0, 0, 0, 0, 0, 0] 0)
      (by decide)).2.2.1 rfl⟩

/-! Startup -/

/-- What `prepare` leaves behind when its two polling loops end: the globals are
untouched, voice 0 holds the two halves of the packed word, and the key masks hold
what `SPUInit` stored. -/
theorem prepare_spec (sine sineSize : Nat) (ctrlReads chcrReads : List Nat) (s s0 : State)
    (h : prepare sine sineSize ctrlReads chcrReads s = some s0) :
    s0.g_CurrentParameterValues = s.g_CurrentParameterValues ∧
    s0.g_ParameterRanges = s.g_ParameterRanges ∧
    s0.g_CurrentSelection = s.g_CurrentSelection ∧
    (s0.SPU_VOICES 0).ad = packADSR s.g_CurrentParameterValues &&& 0xFFFF ∧
    (s0.SPU_VOICES 0).sr = packADSR s.g_CurrentParameterValues >>> 16 ∧
    s0.SPU_KEY_ON_LOW = 0 ∧ s0.SPU_KEY_OFF_LOW = 0xffff := by
  unfold prepare SPUUploadInstruments at h
  cases h1 : waitTransferMode ctrlReads with
  | none => simp [h1] at h
  | some u =>
    cases h2 : waitDmaDone chcrReads with
    | none => simp [h1, h2] at h
    | some u2 =>
      simp only [h1, h2, Option.some.injEq] at h
      subst h
      refine ⟨?_, ?_, ?_, ?_, ?_, ?_, ?_⟩
      · simp [State.setVoice, UpdateADSR, SPUSetVoiceVolume, SPUResetVoice, SPUUnMute, SPUInit]
      · simp [State.setVoice, UpdateADSR, SPUSetVoiceVolume, SPUResetVoice, SPUUnMute, SPUInit]
      · simp [State.setVoice, UpdateADSR, SPUSetVoiceVolume, SPUResetVoice, SPUUnMute, SPUInit]
      · simp [State.setVoice, UpdateADSR, SPUSetVoiceVolume, SPUResetVoice, SPUUnMute,
          SPUInit, u16_and_mask]
      · simp [State.setVoice, UpdateADSR, SPUSetVoiceVolume, SPUResetVoice, SPUUnMute,
          SPUInit, u16_shiftRight_of_lt _ (packADSR_lt _)]
      · simp [State.setVoice, UpdateADSR, SPUSetVoiceVolume, SPUResetVoice, SPUUnMute, SPUInit]
      · simp [State.setVoice, UpdateADSR, SPUSetVoiceVolume, SPUResetVoice, SPUUnMute, SPUInit]

/-- When both polling loops end, `prepare` returns. -/
theorem prepare_returns (sine sineSize : Nat) (ctrlReads chcrReads : List Nat) (s : State)
    (h1 : waitTransferMode ctrlReads = some ()) (h2 : waitDmaDone chcrReads = some ()) :
    ∃ s0, prepare sine sineSize ctrlReads chcrReads s = some s0 := by
  unfold prepare SPUUploadInstruments
  simp [h1, h2]

/-! C7 -/

theorem rangesTyped_of_init (s : State) (h : s.g_ParameterRanges = g_ParameterRanges_init) :
    RangesTyped s := by
  unfold RangesTyped
  rw [h]
  decide

theorem OnButtonPress_writeThrough (spuStatus : List Nat) (s s' : State) (e : Event)
    (hj : WriteThrough s) (h : OnButtonPress spuStatus s e = some s') : WriteThrough s' := by
  obtain ⟨hd, hr, had, hsr⟩ := hj
  obtain ⟨hr', hg'⟩ := OnButtonPress_inRange spuStatus s s' e (rangesTyped_of_init s hd) hr h
  have hd' : s'.g_ParameterRanges = g_ParameterRanges_init := hg'.trans hd
  have hin : ValuesInRange g_ParameterRanges_init s'.g_CurrentParameterValues := by
    have := hr'
    unfold InRange at this
    rw [hd'] at this
    exact this
  refine ⟨hd', hr', ?_⟩
  rcases (OnButtonPress_shape spuStatus s s' e h).2 with ⟨hv, hvo⟩ | ⟨_, rfl⟩ | ⟨_, rfl⟩
  · rw [hv, hvo]
    exact ⟨had, hsr⟩
  · exact UpdateADSR_encodes _ hin
  · exact UpdateADSR_encodes _ hin

theorem runEvents_writeThrough (es : List (List Nat × Event)) :
    ∀ s s' : State, WriteThrough s → runEvents s es = some s' → WriteThrough s' := by
  induction es with
  | nil =>
    intro s s' hj h
    simp only [runEvents, Option.some.injEq] at h
    subst h
    exact hj
  | cons x rest ih =>
    intro s s' hj h
    obtain ⟨st, e⟩ := x
    cases h1 : OnButtonPress st s e with
    | none => simp [runEvents, h1] at h
    | some s1 =>
      simp only [runEvents, h1] at h
      exact ih s1 s' (OnButtonPress_writeThrough st s s1 e hj h1) h

theorem prepare_writeThrough (sine sineSize : Nat) (ctrlReads chcrReads : List Nat)
    (hw s0 : State) (h : prepare sine sineSize ctrlReads chcrReads (bootState hw) = some s0) :
    WriteThrough s0 := by
  obtain ⟨hv, hg, _, had, hsr, _, _⟩ := prepare_spec _ _ _ _ _ _ h
  have hin : ValuesInRange g_ParameterRanges_init g_CurrentParameterValues_init := by decide
  have hh := packADSR_halves _ hin
  refine ⟨hg, ?_, ?_, ?_⟩
  · unfold InRange
    rw [hv, hg]
    exact hin
  · rw [had, hv]
    exact hh.1
  · rw [hsr, hv]
    exact hh.2

/-- C7: in the state that `Hello::prepare` produces from the initial globals, and
after any finite sequence of handled events from there, voice 0's AD and SR
registers hold the encoding of the current parameter values; and startup followed
by the events does return when the hardware answers each polling loop. -/
theorem write_through (sine sineSize : Nat) (ctrlReads chcrReads : List Nat) (hw : State)
    (es : List (List Nat × Event)) :
    (∀ s0 s', prepare sine sineSize ctrlReads chcrReads (bootState hw) = some s0 →
      runEvents s0 es = some s' →
      (s'.SPU_VOICES 0).ad = envelopeAD s'.g_CurrentParameterValues ∧
      (s'.SPU_VOICES 0).sr = envelopeSR s'.g_CurrentParameterValues) ∧
    (waitTransferMode ctrlReads = some () → waitDmaDone chcrReads = some () →
      (∀ x, x ∈ es → IdleSeen x.1) →
      ∃ s0 s', prepare sine sineSize ctrlReads chcrReads (bootState hw) = some s0 ∧
        runEvents s0 es = some s') := by
  constructor
  · intro s0 s' h0 h
    exact (runEvents_writeThrough es s0 s' (prepare_writeThrough _ _ _ _ _ _ h0) h).2.2
  · intro h1 h2 hall
    obtain ⟨s0, h0⟩ := prepare_returns sine sineSize ctrlReads chcrReads (bootState hw) h1 h2
    obtain ⟨s', h⟩ := runEvents_returns es s0 hall
    exact ⟨s0, s', h0, h⟩

/-- C7 at a concrete run: startup, then `Down`, `Right`, `Cross`. -/
theorem write_through_witness :
    waitTransferMode [0x8000, 0x8020] = some () ∧ waitDmaDone [0x01000201, 0x00000201] = some () ∧
    ((prepare 0 64 [0x8000, 0x8020] [0x01000201, 0x00000201] (bootState zeroState)).bind
      (fun s0 => runEvents s0 [([0], press Button.Down), ([0], press Button.Right),
        ([0x0001, 0x0000], press Button.Cross)])).map
      (fun t => decide ((t.SPU_VOICES 0).ad = envelopeAD t.g_CurrentParameterValues ∧
        (t.SPU_VOICES 0).sr = envelopeSR t.g_CurrentParameterValues)) = some true :=
  ⟨by decide, by decide,
   let w := write_through 0 64 [0x8000, 0x8020] [0x01000201, 0x00000201] zeroState
     [([0], press Button.Down), ([0], press Button.Right), ([0x0001, 0x0000], press Button.Cross)]
   (w.2 (by decide) (by decide) (by decide)).elim fun s0 h0 =>
     h0.elim fun s' h => by
       rw [h.1, Option.some_bind, h.2]
       exact congrArg some (decide_eq_true (w.1 s0 s' h.1 h.2))⟩

/-! C8 -/

/-- A field shifted by sixteen or more leaves nothing in the low half, whatever
its value. -/
theorem high_field_low_half (v k : Nat) (hk : 16 ≤ k) : u32 (v <<< k) &&& 0xFFFF = 0 := by
  have hmask : u32 (v <<< k) &&& 0xFFFF = u32 (v <<< k) % 2 ^ 16 :=
    Nat.and_pow_two_sub_one_eq_mod _ 16
  rw [hmask]
  unfold u32
  rw [Nat.mod_mod_of_dvd _ (by decide : 2 ^ 16 ∣ 2 ^ 32), Nat.shiftLeft_eq]
  exact Nat.mod_eq_zero_of_dvd (Dvd.dvd.mul_left (Nat.pow_dvd_pow 2 hk) v)

/-- C8, as the code has it: with AttackMode=1, AttackShift=0x1F, AttackStep=3,
DecayShift=0xF and SustainLevel=0xF (whatever the other parameters hold) the AD
word that `UpdateADSR` stores, `(1<<15)|(0x1F<<10)|(3<<8)|(0xF<<4)|0xF`, is 0xFFFF. -/
theorem example_ad_word (s : State)
    (h0 : s.g_CurrentParameterValues EParameters.AttackMode = 1)
    (h1 : s.g_CurrentParameterValues EParameters.AttackShift = 0x1F)
    (h2 : s.g_CurrentParameterValues EParameters.AttackStep = 0x03)
    (h3 : s.g_CurrentParameterValues EParameters.DecayShift = 0x0F)
    (h4 : s.g_CurrentParameterValues EParameters.SustainLevel = 0x0F) :
    ((UpdateADSR s).SPU_VOICES 0).ad = 0xFFFF ∧
    ((1 <<< 15) ||| (0x1F <<< 10) ||| (3 <<< 8) ||| (0xF <<< 4) ||| 0xF : Nat) = 0xFFFF := by
  refine ⟨?_, by decide⟩
  rw [UpdateADSR_ad]
  simp only [packADSR, h0, h1, h2, h3, h4, or_and_distrib,
    high_field_low_half (s.g_CurrentParameterValues EParameters.SustainMode) 31 (by decide),
    high_field_low_half (s.g_CurrentParameterValues EParameters.SustainDir) 30 (by decide),
    high_field_low_half (s.g_CurrentParameterValues EParameters.SustainShift) 24 (by decide),
    high_field_low_half (s.g_CurrentParameterValues EParameters.SustainStep) 22 (by decide),
    high_field_low_half (s.g_CurrentParameterValues EParameters.ReleaseMode) 21 (by decide),
    high_field_low_half (s.g_CurrentParameterValues EParameters.ReleaseShift) 16 (by decide),
    Nat.or_zero]
  decide

/-- C8 at a concrete state. -/
theorem example_ad_word_witness :
    ((UpdateADSR (stateWith [1, 0x1F, 3, 0xF, 0xF, 1, 0, 7, 2, 1, 9, 1] 0)).SPU_VOICES 0).ad
      = 0xFFFF :=
  (example_ad_word (stateWith [1, 0x1F, 3, 0xF, 0xF, 1, 0, 7, 2, 1, 9, 1] 0)
    rfl rfl rfl rfl rfl).1

/-- C8 as stated fails: at the example's values the AD word is not 0xFBFF, and
neither is the expression the claim gives for it. -/
theorem example_ad_word_not_FBFF :
    ((UpdateADSR (stateWith [1, 0x1F, 3, 0xF, 0xF, 0, 0, 0, 0, 0, 0, 0] 0)).SPU_VOICES 0).ad
      ≠ 0xFBFF ∧
    ((1 <<< 15) ||| (0x1F <<< 10) ||| (3 <<< 8) ||| (0xF <<< 4) ||| 0xF : Nat) ≠ 0xFBFF := by
  decide

/-! C9 -/

/-- C9, as the code has it: the default table holds 0xF for DecayShift and for
SustainLevel and 0 for the other ten parameters, and the envelope that startup
leaves in voice 0 is AD = 0x00FF and SR = 0x0000; startup returns when the
hardware answers its two polling loops. -/
theorem default_envelope (sine sineSize : Nat) (ctrlReads chcrReads : List Nat) (hw : State) :
    (∀ i, i < EParameters.NUM → (bootState hw).g_CurrentParameterValues i
      = if i = EParameters.DecayShift ∨ i = EParameters.SustainLevel then 0x0F else 0x00) ∧
    (∀ s0, prepare sine sineSize ctrlReads chcrReads (bootState hw) = some s0 →
      (s0.SPU_VOICES 0).ad = 0x00FF ∧ (s0.SPU_VOICES 0).sr = 0x0000) ∧
    (waitTransferMode ctrlReads = some () → waitDmaDone chcrReads = some () →
      ∃ s0, prepare sine sineSize ctrlReads chcrReads (bootState hw) = some s0) := by
  refine ⟨?_, ?_, prepare_returns sine sineSize ctrlReads chcrReads (bootState hw)⟩
  · show ∀ i, i < EParameters.NUM → g_CurrentParameterValues_init i
      = if i = EParameters.DecayShift ∨ i = EParameters.SustainLevel then 0x0F else 0x00
    decide
  · intro s0 h
    obtain ⟨_, _, _, had, hsr, _, _⟩ := prepare_spec _ _ _ _ _ _ h
    rw [had, hsr]
    show packADSR g_CurrentParameterValues_init &&& 0xFFFF = 0x00FF ∧
      packADSR g_CurrentParameterValues_init >>> 16 = 0x0000
    decide

/-- C9 at a concrete startup. -/
theorem default_envelope_witness :
    waitTransferMode [0x8020] = some () ∧ waitDmaDone [0x00000201] = some () ∧
    (prepare 0 64 [0x8020] [0x00000201] (bootState zeroState)).map
      (fun s0 => ((s0.SPU_VOICES 0).ad, (s0.SPU_VOICES 0).sr)) = some (0x00FF, 0x0000) :=
  ⟨by decide, by decide,
   let d := default_envelope 0 64 [0x8020] [0x00000201] zeroState
   (d.2.2 (by decide) (by decide)).elim fun s0 h => by
     rw [h]
     exact congrArg some (Prod.ext (d.2.1 s0 h).1 (d.2.1 s0 h).2)⟩

/-- C9 as stated fails: the default DecayShift is not 0, and the AD word after
startup is not 0x000F. -/
theorem default_envelope_not_000F :
    g_CurrentParameterValues_init EParameters.DecayShift ≠ 0 ∧
    (prepare 0 64 [0x8020] [0x00000201] (bootState zeroState)).map
      (fun s0 => (s0.SPU_VOICES 0).ad) ≠ some 0x000F := by
  decide

/-! C10 -/

/-- C10, as the code has it: once the idle wait ends, a `Cross` press stores
`1 << 0 = 0x0001` in `SPU_KEY_ON_LOW` and a `Circle` press stores it in
`SPU_KEY_OFF_LOW`, whatever the register held; every other field of the state (the
high mask registers, the values, the cursor, all other registers) is unchanged. -/
theorem trigger_press (spuStatus : List Nat) (s : State) (h : IdleSeen spuStatus) :
    OnButtonPress spuStatus s (press Button.Cross) = some { s with SPU_KEY_ON_LOW := 0x0001 } ∧
    OnButtonPress spuStatus s (press Button.Circle)
      = some { s with SPU_KEY_OFF_LOW := 0x0001 } := by
  have hw := SPUWaitIdle_of_idleSeen spuStatus h
  constructor
  · simp [OnButtonPress, press, hw, u16]
  · simp [OnButtonPress, press, hw, u16]

/-- C10 at a concrete state: `Cross` with the key-on mask holding 0xFFFF. -/
theorem trigger_press_witness :
    IdleSeen [0x0003, 0x0000] ∧
    (OnButtonPress [0x0003, 0x0000] { zeroState with SPU_KEY_ON_LOW := 0xFFFF }
        (press Button.Cross)).map (fun t => t.SPU_KEY_ON_LOW) = some 0x0001 :=
  ⟨by decide, by
    rw [(trigger_press [0x0003, 0x0000] { zeroState with SPU_KEY_ON_LOW := 0xFFFF }
      (by decide)).1]
    rfl⟩

/-- C10 as stated fails: after startup bit 1 of the key-off mask is set, and a
`Circle` press leaves it cleared. -/
theorem trigger_press_clears_other_bits :
    (prepare 0 64 [0x8020] [0x00000201] (bootState zeroState)).bind (fun s0 =>
      (OnButtonPress [0x0000] s0 (press Button.Circle)).map (fun s' =>
        (s0.SPU_KEY_OFF_LOW.testBit 1, s'.SPU_KEY_OFF_LOW.testBit 1)))
      = some (true, false) := by
  decide

/-! C11 -/

/-- The packed word is the block count, shifted into the high half, with the block
size 0x10 in the low half. -/
theorem uploadBcr_eq (size : Nat) :
    uploadBcr size = u32 (uploadBlockCount size <<< 16) ||| 0x10 := rfl

theorem uploadBlockCount_eq (size : Nat) (h : size < 2 ^ 32) :
    uploadBlockCount size = (size + 63) / 64 := by
  have hand : size &&& 0x3f = size % 2 ^ 6 := Nat.and_pow_two_sub_one_eq_mod size 6
  unfold uploadBlockCount u32
  simp only [hand, Nat.shiftRight_eq_div_pow]
  split <;> omega

/-- C11: for every 32-bit size the block count computed before packing is
`ceil(size / 64)`: it equals `(size + 63) / 64`, which is the one number `n` with
`64 * n` at least `size` and less than `size + 64`; sizes 64, 65 and 0 give 1, 2
and 0. -/
theorem block_count_is_ceil (size : Nat) (h : size < 2 ^ 32) :
    uploadBlockCount size = (size + 63) / 64 ∧
    size ≤ 64 * uploadBlockCount size ∧ 64 * uploadBlockCount size < size + 64 ∧
    uploadBlockCount 64 = 1 ∧ uploadBlockCount 65 = 2 ∧ uploadBlockCount 0 = 0 := by
  have he := uploadBlockCount_eq size h
  refine ⟨he, ?_, ?_, by decide, by decide, by decide⟩
  · rw [he]; omega
  · rw [he]; omega

/-- C11 at a concrete size: 130 bytes need three blocks. -/
theorem block_count_is_ceil_witness : (130 : Nat) < 2 ^ 32 ∧ uploadBlockCount 130 = 3 :=
  ⟨by decide, (block_count_is_ceil 130 (by decide)).1.trans (by decide)⟩

/-! C12 -/

/-- C12: with the master volume at 16384, for every voice index and all logical
volumes up to 0xFFFF, `SPUSetVoiceVolume` leaves `floor(left * 16384 / 65536) =
floor(left / 4)` in the voice's left volume register and the same function of
`right` in its right one; neither 32-bit product overflows. -/
theorem voice_volume_scaling (s : State) (voiceID left right : Nat)
    (hm : s.s_masterVolume = 16384) (hl : left ≤ 0xFFFF) (hr : right ≤ 0xFFFF) :
    ((SPUSetVoiceVolume voiceID left right s).SPU_VOICES voiceID).volumeLeft
      = left * 16384 / 65536 ∧
    ((SPUSetVoiceVolume voiceID left right s).SPU_VOICES voiceID).volumeRight
      = right * 16384 / 65536 ∧
    left * 16384 / 65536 = left / 4 ∧ right * 16384 / 65536 = right / 4 ∧
    left * s.s_masterVolume < 2 ^ 32 ∧ right * s.s_masterVolume < 2 ^ 32 := by
  refine ⟨?_, ?_, by omega, by omega, by rw [hm]; omega, by rw [hm]; omega⟩
  · simp only [SPUSetVoiceVolume, State.setVoice, Function.update_same, hm, u16, u32,
      Nat.shiftRight_eq_div_pow]
    omega
  · simp only [SPUSetVoiceVolume, State.setVoice, Function.update_same, hm, u16, u32,
      Nat.shiftRight_eq_div_pow]
    omega

/-- C12 at the specification's example: `setVoiceVolume(id, 0x3F00, 0x3F00)` leaves
0x0FC0 in both registers. -/
theorem voice_volume_scaling_witness :
    (bootState zeroState).s_masterVolume = 16384 ∧
    ((SPUSetVoiceVolume 0 0x3F00 0x3F00 (bootState zeroState)).SPU_VOICES 0).volumeLeft
      = 0x0FC0 ∧
    ((SPUSetVoiceVolume 0 0x3F00 0x3F00 (bootState zeroState)).SPU_VOICES 0).volumeRight
      = 0x0FC0 :=
  ⟨rfl,
   (voice_volume_scaling (bootState zeroState) 0 0x3F00 0x3F00 rfl (by decide)
      (by decide)).1.trans (by decide),
   (voice_volume_scaling (bootState zeroState) 0 0x3F00 0x3F00 rfl (by decide)
      (by decide)).2.1.trans (by decide)⟩

/-! C13 -/

/-- C13: an event whose type is not `ButtonPressed`, and a `ButtonPressed` event
whose button is none of `Up`, `Down`, `Left`, `Right`, `Cross`, `Circle`, is handled
by returning the state as it was. -/
theorem ignored_event (spuStatus : List Nat) (s : State) (e : Event)
    (h : e.type ≠ EventType.ButtonPressed ∨
      (e.button ≠ Button.Up ∧ e.button ≠ Button.Down ∧ e.button ≠ Button.Left ∧
       e.button ≠ Button.Right ∧ e.button ≠ Button.Cross ∧ e.button ≠ Button.Circle)) :
    OnButtonPress spuStatus s e = some s := by
  obtain ⟨t, b⟩ := e
  rcases h with ht | ⟨h1, h2, h3, h4, h5, h6⟩
  · simp only [OnButtonPress]
    rw [if_neg ht]
  · cases t with
    | Other code => simp [OnButtonPress]
    | ButtonPressed =>
      cases b with
      | Up => exact absurd rfl h1
      | Down => exact absurd rfl h2
      | Left => exact absurd rfl h3
      | Right => exact absurd rfl h4
      | Cross => exact absurd rfl h5
      | Circle => exact absurd rfl h6
      | Other code => simp [OnButtonPress]

/-- C13 at a concrete event: a release of `Cross`, with the hardware never idle. -/
theorem ignored_event_witness :
    (OnButtonPress [0x0001] (stateWith [0, 0, 0, 0xF, 0xF, 0, 0, 0, 0, 0, 0, 0] 0)
        { type := EventType.Other 1, button := Button.Cross }).map
      (fun t => (t.SPU_KEY_ON_LOW, t.g_CurrentSelection)) = some (0, 0) := by
  rw [ignored_event [0x0001] (stateWith [0, 0, 0, 0xF, 0xF, 0, 0, 0, 0, 0, 0, 0] 0)
    { type := EventType.Other 1, button := Button.Cross } (Or.inl (by decide))]
  rfl

/-! C14 -/

/-- The eight stores of `SPUResetVoice` amount to one store of the whole block. -/
theorem SPUResetVoice_eq (voiceID : Nat) (s : State) :
    SPUResetVoice voiceID s
      = { s with SPU_VOICES := Function.update s.SPU_VOICES voiceID resetBlock } := by
  simp [SPUResetVoice, State.setVoice, resetBlock]

/-- C14, as the code has it: after `SPUResetVoice(v)` voice `v` has left and right
volume, sample rate, start address, repeat address, current volume and SR word 0
and AD word 0x000F, that is sustain-level field (bits 3-0) 0xF and decay-shift
field (bits 7-4) 0; the registers of every other voice are unchanged. -/
theorem reset_voice (voiceID : Nat) (s : State) :
    (SPUResetVoice voiceID s).SPU_VOICES voiceID
      = resetBlock ∧
    (((SPUResetVoice voiceID s).SPU_VOICES voiceID).ad >>> 4) &&& 0xF = 0 ∧
    ((SPUResetVoice voiceID s).SPU_VOICES voiceID).ad &&& 0xF = 0xF ∧
    (∀ w, w ≠ voiceID → (SPUResetVoice voiceID s).SPU_VOICES w = s.SPU_VOICES w) := by
  rw [SPUResetVoice_eq]
  refine ⟨?_, ?_, ?_, ?_⟩
  · simp
  · simp [resetBlock]
  · simp [resetBlock]
  · intro w hw
    simp [Function.update_noteq hw]

/-- C14 at a concrete state: resetting voice 3 leaves voice 0 as `UpdateADSR` set
it. -/
theorem reset_voice_witness :
    (3 : Nat) ≠ 0 ∧
    ((SPUResetVoice 0 (UpdateADSR (stateWith [0, 0, 0, 0xF, 0xF, 0, 0, 0, 0, 0, 0, 0] 0))).SPU_VOICES
        3).ad
      = ((UpdateADSR (stateWith [0, 0, 0, 0xF, 0xF, 0, 0, 0, 0, 0, 0, 0] 0)).SPU_VOICES 3).ad :=
  ⟨by decide,
   congrArg SPUVoice.ad
     ((reset_voice 0 (UpdateADSR (stateWith [0, 0, 0, 0xF, 0xF, 0, 0, 0, 0, 0, 0, 0] 0))).2.2.2
       3 (by decide))⟩

/-- C14 as stated fails: the decay-shift field of the AD word after a reset is
not 0xF. -/
theorem reset_voice_decay_field_not_F :
    (((SPUResetVoice 0 zeroState).SPU_VOICES 0).ad >>> 4) &&& 0xF ≠ 0xF := by
  decide

/-! C15 -/

/-- The two stores of `UpdateADSR` amount to replacing the AD and SR words of
voice 0. -/
theorem UpdateADSR_eq (s : State) :
    UpdateADSR s = s.withEnvelope0 (packADSR s.g_CurrentParameterValues &&& 0xFFFF)
      (packADSR s.g_CurrentParameterValues >>> 16) := by
  simp [UpdateADSR, State.setVoice, State.withEnvelope0, u16_and_mask,
    u16_shiftRight_of_lt _ (packADSR_lt _)]

/-- C15: running `UpdateADSR` twice gives the state that running it once gives, and
one run changes nothing but the AD and SR words of voice 0: the state is the old
one with those two words replaced, so values, ranges, cursor and every other
register are the same, the six other registers of voice 0 are the same, and every
other voice is the same. -/
theorem UpdateADSR_idempotent_confined (s : State) :
    UpdateADSR (UpdateADSR s) = UpdateADSR s ∧
    UpdateADSR s = s.withEnvelope0 ((UpdateADSR s).SPU_VOICES 0).ad
      ((UpdateADSR s).SPU_VOICES 0).sr ∧
    (UpdateADSR s).g_CurrentParameterValues = s.g_CurrentParameterValues ∧
    (UpdateADSR s).g_ParameterRanges = s.g_ParameterRanges ∧
    (UpdateADSR s).g_CurrentSelection = s.g_CurrentSelection ∧
    (∀ w, w ≠ 0 → (UpdateADSR s).SPU_VOICES w = s.SPU_VOICES w) := by
  refine ⟨?_, ?_, rfl, rfl, rfl, ?_⟩
  · rw [UpdateADSR_eq (UpdateADSR s), UpdateADSR_values]
    rw [UpdateADSR_eq s]
    simp [State.withEnvelope0, State.setVoice]
  · rw [UpdateADSR_ad, UpdateADSR_sr]
    exact UpdateADSR_eq s
  · intro w hw
    rw [UpdateADSR_eq]
    simp [State.withEnvelope0, State.setVoice, Function.update_noteq hw]

/-- C15 at a concrete state: voice 5 is as it was. -/
theorem UpdateADSR_idempotent_confined_witness :
    (5 : Nat) ≠ 0 ∧
    (UpdateADSR (SPUResetVoice 5 (stateWith [1, 2, 3, 4, 5, 1, 0, 6, 1, 0, 7, 1] 0))).SPU_VOICES 5
      = resetBlock :=
  ⟨by decide,
   ((UpdateADSR_idempotent_confined
      (SPUResetVoice 5 (stateWith [1, 2, 3, 4, 5, 1, 0, 6, 1, 0, 7, 1] 0))).2.2.2.2.2
      5 (by decide)).trans (by decide)⟩

/-! C16 -/

theorem ad_term15 (v : Nat) (h : v ≤ 1) :
    ((v <<< 15) >>> 15) &&& 0x01 = v ∧ ((v <<< 15) >>> 10) &&& 0x1F = 0 ∧
    ((v <<< 15) >>> 8) &&& 0x03 = 0 ∧ ((v <<< 15) >>> 4) &&& 0x0F = 0 ∧
    (v <<< 15) &&& 0x0F = 0 := by
  interval_cases v <;> decide

theorem ad_term10 (v : Nat) (h : v ≤ 31) :
    ((v <<< 10) >>> 15) &&& 0x01 = 0 ∧ ((v <<< 10) >>> 10) &&& 0x1F = v ∧
    ((v <<< 10) >>> 8) &&& 0x03 = 0 ∧ ((v <<< 10) >>> 4) &&& 0x0F = 0 ∧
    (v <<< 10) &&& 0x0F = 0 := by
  interval_cases v <;> decide

theorem ad_term8 (v : Nat) (h : v ≤ 3) :
    ((v <<< 8) >>> 15) &&& 0x01 = 0 ∧ ((v <<< 8) >>> 10) &&& 0x1F = 0 ∧
    ((v <<< 8) >>> 8) &&& 0x03 = v ∧ ((v <<< 8) >>> 4) &&& 0x0F = 0 ∧
    (v <<< 8) &&& 0x0F = 0 := by
  interval_cases v <;> decide

theorem ad_term4 (v : Nat) (h : v ≤ 15) :
    ((v <<< 4) >>> 15) &&& 0x01 = 0 ∧ ((v <<< 4) >>> 10) &&& 0x1F = 0 ∧
    ((v <<< 4) >>> 8) &&& 0x03 = 0 ∧ ((v <<< 4) >>> 4) &&& 0x0F = v ∧
    (v <<< 4) &&& 0x0F = 0 := by
  interval_cases v <;> decide

theorem ad_term0 (v : Nat) (h : v ≤ 15) :
    (v >>> 15) &&& 0x01 = 0 ∧ (v >>> 10) &&& 0x1F = 0 ∧
    (v >>> 8) &&& 0x03 = 0 ∧ (v >>> 4) &&& 0x0F = 0 ∧ v &&& 0x0F = v := by
  interval_cases v <;> decide

/-- Every field of the AD word is read back by its shift and mask. -/
theorem ad_recover (values : Nat → Nat)
    (h : ValuesInRange g_ParameterRanges_init values) :
    (envelopeAD values >>> 15) &&& 0x01 = values 0 ∧
    (envelopeAD values >>> 10) &&& 0x1F = values 1 ∧
    (envelopeAD values >>> 8) &&& 0x03 = values 2 ∧
    (envelopeAD values >>> 4) &&& 0x0F = values 3 ∧
    envelopeAD values &&& 0x0F = values 4 := by
  obtain ⟨h0, h1, h2, h3, h4, _⟩ := bounds_of_inRange values h
  have a0 := ad_term15 (values 0) h0
  have a1 := ad_term10 (values 1) h1
  have a2 := ad_term8 (values 2) h2
  have a3 := ad_term4 (values 3) h3
  have a4 := ad_term0 (values 4) h4
  refine ⟨?_, ?_, ?_, ?_, ?_⟩
  · simp only [envelopeAD, or_shiftRight_distrib, or_and_distrib, a0.1, a1.1, a2.1, a3.1,
      a4.1, Nat.or_zero, Nat.zero_or]
  · simp only [envelopeAD, or_shiftRight_distrib, or_and_distrib, a0.2.1, a1.2.1, a2.2.1,
      a3.2.1, a4.2.1, Nat.or_zero, Nat.zero_or]
  · simp only [envelopeAD, or_shiftRight_distrib, or_and_distrib, a0.2.2.1, a1.2.2.1,
      a2.2.2.1, a3.2.2.1, a4.2.2.1, Nat.or_zero, Nat.zero_or]
  · simp only [envelopeAD, or_shiftRight_distrib, or_and_distrib, a0.2.2.2.1, a1.2.2.2.1,
      a2.2.2.2.1, a3.2.2.2.1, a4.2.2.2.1, Nat.or_zero, Nat.zero_or]
  · simp only [envelopeAD, or_and_distrib, a0.2.2.2.2, a1.2.2.2.2, a2.2.2.2.2, a3.2.2.2.2,
      a4.2.2.2.2, Nat.or_zero, Nat.zero_or]

theorem sr_term15 (v : Nat) (h : v ≤ 1) :
    ((v <<< 15) >>> 15) &&& 0x01 = v ∧ ((v <<< 15) >>> 14) &&& 0x01 = 0 ∧
    ((v <<< 15) >>> 8) &&& 0x1F = 0 ∧ ((v <<< 15) >>> 6) &&& 0x03 = 0 ∧
    ((v <<< 15) >>> 5) &&& 0x01 = 0 ∧ (v <<< 15) &&& 0x1F = 0 ∧
    ((v <<< 15) >>> 13) &&& 0x01 = 0 := by
  interval_cases v <;> decide

theorem sr_term14 (v : Nat) (h : v ≤ 1) :
    ((v <<< 14) >>> 15) &&& 0x01 = 0 ∧ ((v <<< 14) >>> 14) &&& 0x01 = v ∧
    ((v <<< 14) >>> 8) &&& 0x1F = 0 ∧ ((v <<< 14) >>> 6) &&& 0x03 = 0 ∧
    ((v <<< 14) >>> 5) &&& 0x01 = 0 ∧ (v <<< 14) &&& 0x1F = 0 ∧
    ((v <<< 14) >>> 13) &&& 0x01 = 0 := by
  interval_cases v <;> decide

theorem sr_term8 (v : Nat) (h : v ≤ 31) :
    ((v <<< 8) >>> 15) &&& 0x01 = 0 ∧ ((v <<< 8) >>> 14) &&& 0x01 = 0 ∧
    ((v <<< 8) >>> 8) &&& 0x1F = v ∧ ((v <<< 8) >>> 6) &&& 0x03 = 0 ∧
    ((v <<< 8) >>> 5) &&& 0x01 = 0 ∧ (v <<< 8) &&& 0x1F = 0 ∧
    ((v <<< 8) >>> 13) &&& 0x01 = 0 := by
  interval_cases v <;> decide

theorem sr_term6 (v : Nat) (h : v ≤ 3) :
    ((v <<< 6) >>> 15) &&& 0x01 = 0 ∧ ((v <<< 6) >>> 14) &&& 0x01 = 0 ∧
    ((v <<< 6) >>> 8) &&& 0x1F = 0 ∧ ((v <<< 6) >>> 6) &&& 0x03 = v ∧
    ((v <<< 6) >>> 5) &&& 0x01 = 0 ∧ (v <<< 6) &&& 0x1F = 0 ∧
    ((v <<< 6) >>> 13) &&& 0x01 = 0 := by
  interval_cases v <;> decide

theorem sr_term5 (v : Nat) (h : v ≤ 1) :
    ((v <<< 5) >>> 15) &&& 0x01 = 0 ∧ ((v <<< 5) >>> 14) &&& 0x01 = 0 ∧
    ((v <<< 5) >>> 8) &&& 0x1F = 0 ∧ ((v <<< 5) >>> 6) &&& 0x03 = 0 ∧
    ((v <<< 5) >>> 5) &&& 0x01 = v ∧ (v <<< 5) &&& 0x1F = 0 ∧
    ((v <<< 5) >>> 13) &&& 0x01 = 0 := by
  interval_cases v <;> decide

theorem sr_term0 (v : Nat) (h : v ≤ 31) :
    (v >>> 15) &&& 0x01 = 0 ∧ (v >>> 14) &&& 0x01 = 0 ∧
    (v >>> 8) &&& 0x1F = 0 ∧ (v >>> 6) &&& 0x03 = 0 ∧
    (v >>> 5) &&& 0x01 = 0 ∧ v &&& 0x1F = v ∧ (v >>> 13) &&& 0x01 = 0 := by
  interval_cases v <;> decide

/-- Every field of the SR word is read back by its shift and mask, and bit 13 of
the word is clear. -/
theorem sr_recover (values : Nat → Nat)
    (h : ValuesInRange g_ParameterRanges_init values) :
    (envelopeSR values >>> 15) &&& 0x01 = values 5 ∧
    (envelopeSR values >>> 14) &&& 0x01 = values 6 ∧
    (envelopeSR values >>> 8) &&& 0x1F = values 7 ∧
    (envelopeSR values >>> 6) &&& 0x03 = values 8 ∧
    (envelopeSR values >>> 5) &&& 0x01 = values 9 ∧
    envelopeSR values &&& 0x1F = values 10 ∧
    (envelopeSR values >>> 13) &&& 0x01 = 0 := by
  obtain ⟨_, _, _, _, _, h5, h6, h7, h8, h9, h10⟩ := bounds_of_inRange values h
  have a5 := sr_term15 (values 5) h5
  have a6 := sr_term14 (values 6) h6
  have a7 := sr_term8 (values 7) h7
  have a8 := sr_term6 (values 8) h8
  have a9 := sr_term5 (values 9) h9
  have a10 := sr_term0 (values 10) h10
  refine ⟨?_, ?_, ?_, ?_, ?_, ?_, ?_⟩
  · simp only [envelopeSR, or_shiftRight_distrib, or_and_distrib, a5.1, a6.1, a7.1, a8.1,
      a9.1, a10.1, Nat.or_zero, Nat.zero_or]
  · simp only [envelopeSR, or_shiftRight_distrib, or_and_distrib, a5.2.1, a6.2.1, a7.2.1,
      a8.2.1, a9.2.1, a10.2.1, Nat.or_zero, Nat.zero_or]
  · simp only [envelopeSR, or_shiftRight_distrib, or_and_distrib, a5.2.2.1, a6.2.2.1,
      a7.2.2.1, a8.2.2.1, a9.2.2.1, a10.2.2.1, Nat.or_zero, Nat.zero_or]
  · simp only [envelopeSR, or_shiftRight_distrib, or_and_distrib, a5.2.2.2.1, a6.2.2.2.1,
      a7.2.2.2.1, a8.2.2.2.1, a9.2.2.2.1, a10.2.2.2.1, Nat.or_zero, Nat.zero_or]
  · simp only [envelopeSR, or_shiftRight_distrib, or_and_distrib, a5.2.2.2.2.1,
      a6.2.2.2.2.1, a7.2.2.2.2.1, a8.2.2.2.2.1, a9.2.2.2.2.1, a10.2.2.2.2.1, Nat.or_zero,
      Nat.zero_or]
  · simp only [envelopeSR, or_and_distrib, a5.2.2.2.2.2.1, a6.2.2.2.2.2.1, a7.2.2.2.2.2.1,
      a8.2.2.2.2.2.1, a9.2.2.2.2.2.1, a10.2.2.2.2.2.1, Nat.or_zero, Nat.zero_or]
  · simp only [envelopeSR, or_shiftRight_distrib, or_and_distrib, a5.2.2.2.2.2.2,
      a6.2.2.2.2.2.2, a7.2.2.2.2.2.2, a8.2.2.2.2.2.2, a9.2.2.2.2.2.2, a10.2.2.2.2.2.2,
      Nat.or_zero]

/-- The decoder applied to the encoding gives back the eleven envelope values. -/
theorem unpack_envelope (values : Nat → Nat)
    (h : ValuesInRange g_ParameterRanges_init values) (i : Nat) (hi : i < 11) :
    unpackADSR (envelopeAD values) (envelopeSR values) i = values i := by
  obtain ⟨b0, b1, b2, b3, b4⟩ := ad_recover values h
  obtain ⟨b5, b6, b7, b8, b9, b10, _⟩ := sr_recover values h
  interval_cases i
  · exact b0
  · exact b1
  · exact b2
  · exact b3
  · exact b4
  · exact b5
  · exact b6
  · exact b7
  · exact b8
  · exact b9
  · exact b10

/-- C16: for all values within the program's ranges, each of the eleven envelope
parameters is read back from the AD and SR words that `UpdateADSR` stored by
shifting right by its field offset and masking to its field width; bit 13 of the SR
word (bit 29 of the envelope) is 0; and two in-range tables that give the same AD
and SR words agree on all eleven envelope parameters. -/
theorem lossless_packing (s t : State)
    (hs : ValuesInRange g_ParameterRanges_init s.g_CurrentParameterValues)
    (ht : ValuesInRange g_ParameterRanges_init t.g_CurrentParameterValues) :
    (∀ i, i < 11 →
      unpackADSR ((UpdateADSR s).SPU_VOICES 0).ad ((UpdateADSR s).SPU_VOICES 0).sr i
        = s.g_CurrentParameterValues i) ∧
    (((UpdateADSR s).SPU_VOICES 0).sr >>> 13) &&& 0x01 = 0 ∧
    (packADSR s.g_CurrentParameterValues >>> 29) &&& 0x01 = 0 ∧
    (((UpdateADSR s).SPU_VOICES 0).ad = ((UpdateADSR t).SPU_VOICES 0).ad →
      ((UpdateADSR s).SPU_VOICES 0).sr = ((UpdateADSR t).SPU_VOICES 0).sr →
      ∀ i, i < 11 → s.g_CurrentParameterValues i = t.g_CurrentParameterValues i) := by
  have hads := (UpdateADSR_encodes s hs)
  have hadt := (UpdateADSR_encodes t ht)
  simp only [UpdateADSR_values] at hads hadt
  have hbit := (sr_recover _ hs).2.2.2.2.2.2
  refine ⟨?_, ?_, ?_, ?_⟩
  · intro i hi
    rw [hads.1, hads.2]
    exact unpack_envelope _ hs i hi
  · rw [hads.2]
    exact hbit
  · have h29 : packADSR s.g_CurrentParameterValues >>> 29
        = (packADSR s.g_CurrentParameterValues >>> 16) >>> 13 := by
      rw [← Nat.shiftRight_add]
    rw [h29, (packADSR_halves _ hs).2]
    exact hbit
  · intro had hsr i hi
    rw [← unpack_envelope _ hs i hi, ← unpack_envelope _ ht i hi, ← hads.1, ← hads.2,
      ← hadt.1, ← hadt.2, had, hsr]

/-- C16 at a concrete table: `SustainShift` is read back from the SR word. -/
theorem lossless_packing_witness :
    ValuesInRange g_ParameterRanges_init
      (stateWith [1, 0x12, 2, 9, 0xC, 0, 1, 0x1B, 3, 1, 0x05, 1] 0).g_CurrentParameterValues ∧
    unpackADSR
      ((UpdateADSR (stateWith [1, 0x12, 2, 9, 0xC, 0, 1, 0x1B, 3, 1, 0x05, 1] 0)).SPU_VOICES 0).ad
      ((UpdateADSR (stateWith [1, 0x12, 2, 9, 0xC, 0, 1, 0x1B, 3, 1, 0x05, 1] 0)).SPU_VOICES 0).sr
      EParameters.SustainShift = 0x1B :=
  ⟨by decide,
   (lossless_packing (stateWith [1, 0x12, 2, 9, 0xC, 0, 1, 0x1B, 3, 1, 0x05, 1] 0)
      (stateWith [1, 0x12, 2, 9, 0xC, 0, 1, 0x1B, 3, 1, 0x05, 1] 0)
      (by decide) (by decide)).1 EParameters.SustainShift (by decide)⟩

/-! C17 -/

theorem SPUUploadInstruments_bcr (SpuAddr data size : Nat) (ctrlReads chcrReads : List Nat)
    (s s' : State) (h : SPUUploadInstruments SpuAddr data size ctrlReads chcrReads s = some s') :
    s'.DMA_SPU_BCR = uploadBcr size := by
  unfold SPUUploadInstruments at h
  cases h1 : waitTransferMode ctrlReads with
  | none => simp [h1] at h
  | some u =>
    cases h2 : waitDmaDone chcrReads with
    | none => simp [h1, h2] at h
    | some u2 =>
      simp only [h1, h2, Option.some.injEq] at h
      subst h
      rfl

theorem SPUUploadInstruments_returns (SpuAddr data size : Nat)
    (ctrlReads chcrReads : List Nat) (s : State)
    (h1 : waitTransferMode ctrlReads = some ()) (h2 : waitDmaDone chcrReads = some ()) :
    ∃ s', SPUUploadInstruments SpuAddr data size ctrlReads chcrReads s = some s' := by
  unfold SPUUploadInstruments
  simp [h1, h2]

/-- The two halves of the packed word in terms of the block count. -/
theorem uploadBcr_halves (size : Nat) :
    uploadBcr size &&& 0xFFFF = 0x0010 ∧
    uploadBcr size >>> 16 = uploadBlockCount size % 65536 := by
  rw [uploadBcr_eq]
  constructor
  · rw [or_and_distrib, high_field_low_half _ 16 (Nat.le_refl 16)]
    decide
  · rw [or_shiftRight_distrib]
    have h0 : (0x10 : Nat) >>> 16 = 0 := by decide
    rw [h0, Nat.or_zero]
    simp only [u32, Nat.shiftLeft_eq, Nat.shiftRight_eq_div_pow]
    omega

/-- C17: the word that `SPUUploadInstruments` stores in the channel's BCR register
has low 16 bits 0x0010, and high 16 bits `ceil(size / 64) mod 65536`; the high half
equals `ceil(size / 64)` exactly when that is below 65536, which is when
`size <= 0x3FFFC0`; size 0x400000 programs a block count of 0. -/
theorem bcr_word (SpuAddr data size : Nat) (ctrlReads chcrReads : List Nat) (s : State)
    (h : size < 2 ^ 32) :
    (∀ s', SPUUploadInstruments SpuAddr data size ctrlReads chcrReads s = some s' →
      s'.DMA_SPU_BCR &&& 0xFFFF = 0x0010 ∧
      s'.DMA_SPU_BCR >>> 16 = (size + 63) / 64 % 65536 ∧
      (s'.DMA_SPU_BCR >>> 16 = (size + 63) / 64 ↔ (size + 63) / 64 < 65536)) ∧
    (waitTransferMode ctrlReads = some () → waitDmaDone chcrReads = some () →
      ∃ s', SPUUploadInstruments SpuAddr data size ctrlReads chcrReads s = some s') ∧
    ((size + 63) / 64 < 65536 ↔ size ≤ 0x3FFFC0) ∧
    uploadBcr 0x400000 >>> 16 = 0 := by
  have hc := uploadBlockCount_eq size h
  have hh := uploadBcr_halves size
  rw [hc] at hh
  refine ⟨?_, SPUUploadInstruments_returns SpuAddr data size ctrlReads chcrReads s, ?_,
    by decide⟩
  · intro s' hs'
    rw [SPUUploadInstruments_bcr _ _ _ _ _ _ _ hs']
    refine ⟨hh.1, hh.2, ?_⟩
    rw [hh.2]
    omega
  · omega

/-- C17 at a concrete upload: 0x400000 bytes program a block count of 0. -/
theorem bcr_word_witness :
    (0x400000 : Nat) < 2 ^ 32 ∧
    waitTransferMode [0x8020] = some () ∧ waitDmaDone [0x00000201] = some () ∧
    (SPUUploadInstruments 0x1010 0 0x400000 [0x8020] [0x00000201] zeroState).map
      (fun t => (t.DMA_SPU_BCR >>> 16, t.DMA_SPU_BCR &&& 0xFFFF)) = some (0, 0x0010) :=
  ⟨by decide, by decide, by decide,
   let w := bcr_word 0x1010 0 0x400000 [0x8020] [0x00000201] zeroState (by decide)
   (w.2.1 (by decide) (by decide)).elim fun s' h => by
     rw [h]
     exact congrArg some (Prod.ext ((w.1 s' h).2.1.trans (by decide)) (w.1 s' h).1)⟩

/-! C18 -/

/-- The packed word reads the eleven envelope parameters only. -/
theorem packADSR_congr (v w : Nat → Nat) (h : ∀ i, i < 11 → v i = w i) :
    packADSR v = packADSR w := by
  unfold packADSR
  rw [h 0 (by decide), h 1 (by decide), h 2 (by decide), h 3 (by decide), h 4 (by decide),
    h 5 (by decide), h 6 (by decide), h 7 (by decide), h 8 (by decide), h 9 (by decide),
    h 10 (by decide)]

theorem envelope_congr (v w : Nat → Nat) (h : ∀ i, i < 11 → v i = w i) :
    envelopeAD v = envelopeAD w ∧ envelopeSR v = envelopeSR w := by
  unfold envelopeAD envelopeSR
  rw [h 0 (by decide), h 1 (by decide), h 2 (by decide), h 3 (by decide), h 4 (by decide),
    h 5 (by decide), h 6 (by decide), h 7 (by decide), h 8 (by decide), h 9 (by decide),
    h 10 (by decide)]
  exact ⟨rfl, rfl⟩

/-- C18: two states whose tables agree on the eleven envelope parameters get the
same AD and SR words from `UpdateADSR`, whatever `Waveform` holds; with `Waveform`
selected, a `Right` or `Left` press away from the boundary still stores the new
value and runs `UpdateADSR`; and in a state where voice 0 already holds the
encoding of the values (as after startup), any handled `Left` or `Right` press on
`Waveform` leaves the AD and SR words as they were. -/
theorem waveform_not_in_envelope (spuStatus : List Nat) (s t : State)
    (hagree : ∀ i, i < 11 → s.g_CurrentParameterValues i = t.g_CurrentParameterValues i) :
    ((UpdateADSR s).SPU_VOICES 0).ad = ((UpdateADSR t).SPU_VOICES 0).ad ∧
    ((UpdateADSR s).SPU_VOICES 0).sr = ((UpdateADSR t).SPU_VOICES 0).sr ∧
    (s.g_CurrentSelection = EParameters.Waveform →
      s.g_CurrentParameterValues EParameters.Waveform
        ≠ (s.g_ParameterRanges EParameters.Waveform).m_Max →
      OnButtonPress spuStatus s (press Button.Right)
        = some (UpdateADSR (s.setValue EParameters.Waveform
            (u8 (s.g_CurrentParameterValues EParameters.Waveform + 1))))) ∧
    (s.g_CurrentSelection = EParameters.Waveform →
      s.g_CurrentParameterValues EParameters.Waveform
        ≠ (s.g_ParameterRanges EParameters.Waveform).m_Min →
      OnButtonPress spuStatus s (press Button.Left)
        = some (UpdateADSR (s.setValue EParameters.Waveform
            (u8 (s.g_CurrentParameterValues EParameters.Waveform + 255))))) ∧
    (s.g_CurrentSelection = EParameters.Waveform → WriteThrough s →
      ∀ e s', e = press Button.Right ∨ e = press Button.Left →
      OnButtonPress spuStatus s e = some s' →
      (s'.SPU_VOICES 0).ad = (s.SPU_VOICES 0).ad ∧ (s'.SPU_VOICES 0).sr = (s.SPU_VOICES 0).sr ∧
      ∀ i, i < 11 → s'.g_CurrentParameterValues i = s.g_CurrentParameterValues i) := by
  have hp := packADSR_congr _ _ hagree
  refine ⟨by rw [UpdateADSR_ad, UpdateADSR_ad, hp], by rw [UpdateADSR_sr, UpdateADSR_sr, hp],
    ?_, ?_, ?_⟩
  · intro hsel hne
    rw [← hsel] at hne ⊢
    simp [OnButtonPress, press, hne]
  · intro hsel hne
    rw [← hsel] at hne ⊢
    simp [OnButtonPress, press, hne]
  · intro hsel hj e s' _ hstep
    have hj' := OnButtonPress_writeThrough spuStatus s s' e hj hstep
    have hvals : ∀ i, i < 11 → s'.g_CurrentParameterValues i = s.g_CurrentParameterValues i := by
      intro i hi
      have hne : i ≠ s.g_CurrentSelection := by
        rw [hsel]
        exact Nat.ne_of_lt hi
      rcases (OnButtonPress_shape spuStatus s s' e hstep).2 with ⟨hv, _⟩ | ⟨_, rfl⟩ | ⟨_, rfl⟩
      · rw [hv]
      · simp [State.setValue, Function.update_noteq hne]
      · simp [State.setValue, Function.update_noteq hne]
    have hc := envelope_congr _ _ hvals
    exact ⟨by rw [hj'.2.2.1, hj.2.2.1, hc.1], by rw [hj'.2.2.2, hj.2.2.2, hc.2], hvals⟩

/-- C18 at concrete states: two tables that differ in `Waveform` only give the
same SR word, and with `Waveform` selected after startup values a `Right` press
stores `Waveform = 1` while the AD word is still 0x00FF. -/
theorem waveform_not_in_envelope_witness :
    (UpdateADSR (stateWith [0, 0, 0, 0xF, 0xF, 0, 0, 0, 0, 0, 0, 0] 11)).g_CurrentSelection
      = EParameters.Waveform ∧
    ((UpdateADSR (UpdateADSR (stateWith [0, 0, 0, 0xF, 0xF, 0, 0, 0, 0, 0, 0, 0] 11))).SPU_VOICES
        0).sr
      = ((UpdateADSR (stateWith [0, 0, 0, 0xF, 0xF, 0, 0, 0, 0, 0, 0, 1] 11)).SPU_VOICES 0).sr ∧
    (OnButtonPress [] (UpdateADSR (stateWith [0, 0, 0, 0xF, 0xF, 0, 0, 0, 0, 0, 0, 0] 11))
        (press Button.Right)).map
      (fun t => (t.g_CurrentParameterValues EParameters.Waveform, (t.SPU_VOICES 0).ad))
      = some (1, 0x00FF) :=
  ⟨rfl,
   (waveform_not_in_envelope []
      (UpdateADSR (stateWith [0, 0, 0, 0xF, 0xF, 0, 0, 0, 0, 0, 0, 0] 11))
      (stateWith [0, 0, 0, 0xF, 0xF, 0, 0, 0, 0, 0, 0, 1] 11) (by decide)).2.1,
   by
    rw [(waveform_not_in_envelope []
      (UpdateADSR (stateWith [0, 0, 0, 0xF, 0xF, 0, 0, 0, 0, 0, 0, 0] 11))
      (stateWith [0, 0, 0, 0xF, 0xF, 0, 0, 0, 0, 0, 0, 1] 11) (by decide)).2.2.1 rfl (by decide)]
    decide⟩

end PSXSpuTest
